import Mathlib

/-!
Verification development for the fee-market simulator's core fee-adjustment
engine (package `simulator`): the shared block/state model, the AIMD,
EIP-1559 and PID fee adjusters, the strategic (`BatcherSlowPID`) and
tactical (`SequencerFastPID`) layers, and the `HierarchicalPID` coordinator.

Modelling conventions (a shallow embedding of the Go source):
* Go `uint64` values (gas, fees) are modelled as `Nat`; Go `int64`
  arithmetic (used only by the EIP-1559 update) is modelled as exact `Int`
  with Go's truncating division written `Int.tdiv`.
* Go `float64` values are modelled as exact rationals `ℚ`; `uint64(f)` for
  a non-negative float `f` (the only case the source reaches, thanks to
  the minimum-fee clamp) is truncation, modelled as `Int.toNat ⌊q⌋`.
* Wall-clock-driven triggers (`time.Since(..) >= UpdateFrequency`,
  coordination intervals) are modelled by boolean oracle inputs supplied
  alongside each block, quantified over in the theorems.
* The capacity-10 Go channels are modelled as FIFO queues (`List`) with
  the exact send/receive branch structure of the source.
* `Timestamp` and `Reason` fields (wall-clock values and formatted strings,
  irrelevant to control behaviour) are omitted from the `SequencerParamUpdate`
  and `DAMetrics` records.
-/

/-- Block mirrors Go `simulator.Block`: sequence number, gas used, and the
base fee at the time the block was produced. -/
structure Block where
  Number : Nat
  GasUsed : Nat
  BaseFee : Nat
deriving DecidableEq

/-- State mirrors Go `simulator.State`, the snapshot returned by
`GetCurrentState`. -/
structure State where
  BaseFee : Nat
  LearningRate : ℚ
  TargetUtilization : ℚ
  BurstUtilization : ℚ
deriving DecidableEq

/-- Go `uint64(f)` for a float64 `f`: truncation toward zero; for the
non-negative values produced by the clamped fee updates this is the floor. -/
def uint64OfFloat (q : ℚ) : Nat := ⌊q⌋₊

/-- Go `simulator.CalculateMaxBlockSize`: `uint64(float64(target) * burstMultiplier)`. -/
def CalculateMaxBlockSize (targetBlockSize : Nat) (burstMultiplier : ℚ) : Nat :=
  uint64OfFloat ((targetBlockSize : ℚ) * burstMultiplier)

/-- Go `simulator.SumBlockSizesInWindow`: sum of gas used over the last
`windowSize` blocks. -/
def SumBlockSizesInWindow (blocks : List Block) (windowSize : Nat) : Nat :=
  ((blocks.drop (blocks.length - windowSize)).map Block.GasUsed).sum

/-- Go `simulator.NetGasDelta`: signed sum of `gasUsed - target` over the
last `windowSize` blocks. -/
def NetGasDelta (blocks : List Block) (windowSize : Nat) (targetBlockSize : Nat) : Int :=
  ((blocks.drop (blocks.length - windowSize)).map
    (fun b => (b.GasUsed : Int) - (targetBlockSize : Int))).sum

/-- Go `simulator.CalculateTargetUtilization`: windowed gas sum divided by
`windowSize * targetBlockSize`; zero until the window has filled. -/
def CalculateTargetUtilization (blocks : List Block) (windowSize : Nat)
    (targetBlockSize : Nat) : ℚ :=
  if blocks.length < windowSize then 0
  else (SumBlockSizesInWindow blocks windowSize : ℚ) /
    ((windowSize : ℚ) * (targetBlockSize : ℚ))

/-- Go `simulator.CalculateBurstUtilization`: windowed gas sum divided by
`windowSize * maxBlockSize`; zero until the window has filled. -/
def CalculateBurstUtilization (blocks : List Block) (windowSize : Nat)
    (maxBlockSize : Nat) : ℚ :=
  if blocks.length < windowSize then 0
  else (SumBlockSizesInWindow blocks windowSize : ℚ) /
    ((windowSize : ℚ) * (maxBlockSize : ℚ))

/-- Go `simulator.ClampFloat64`. -/
def ClampFloat64 (value lo hi : ℚ) : ℚ :=
  if value < lo then lo else if value > hi then hi else value

/-- Go `simulator.ClampUint64`. -/
def ClampUint64 (value lo hi : Nat) : Nat :=
  if value < lo then lo else if value > hi then hi else value

/-! ## AIMD fee adjuster (`AIMDFeeAdjuster`) -/

/-- Go `simulator.AIMDConfig`. -/
structure AIMDConfig where
  TargetBlockSize : Nat
  BurstMultiplier : ℚ
  InitialBaseFee : Nat
  MinBaseFee : Nat
  WindowSize : Nat
  Gamma : ℚ
  InitialLearningRate : ℚ
  MaxLearningRate : ℚ
  MinLearningRate : ℚ
  Alpha : ℚ
  Beta : ℚ
  Delta : ℚ
deriving DecidableEq

/-- Go `simulator.DefaultAIMDConfig` (decimal constants written as exact
rationals: 0.25, 0.1, 0.5, 0.001, 0.01, 0.9). -/
def DefaultAIMDConfig : AIMDConfig where
  TargetBlockSize := 15000000
  BurstMultiplier := 2
  InitialBaseFee := 1000000000
  MinBaseFee := 0
  WindowSize := 10
  Gamma := 1/4
  InitialLearningRate := 1/10
  MaxLearningRate := 1/2
  MinLearningRate := 1/1000
  Alpha := 1/100
  Beta := 9/10
  Delta := 0

/-- Mutable state of `AIMDFeeAdjuster` (the config is passed separately). -/
structure AIMDState where
  blocks : List Block
  learningRate : ℚ
  baseFee : Nat
deriving DecidableEq

/-- Go `NewAIMDFeeAdjuster`. -/
def aimdNew (cfg : AIMDConfig) : AIMDState :=
  { blocks := [], learningRate := cfg.InitialLearningRate, baseFee := cfg.InitialBaseFee }

/-- Go `AIMDFeeAdjuster.adjustLearningRate`. -/
def aimdAdjustLearningRate (cfg : AIMDConfig) (s : AIMDState) : AIMDState :=
  let targetUtilization := CalculateTargetUtilization s.blocks cfg.WindowSize cfg.TargetBlockSize
  let utilizationDeviation := |targetUtilization - 1|
  if utilizationDeviation > cfg.Gamma then
    { s with learningRate := min cfg.MaxLearningRate (cfg.Alpha + s.learningRate) }
  else
    { s with learningRate := max cfg.MinLearningRate (cfg.Beta * s.learningRate) }

/-- Go `AIMDFeeAdjuster.adjustBaseFee`. -/
def aimdAdjustBaseFee (cfg : AIMDConfig) (s : AIMDState) (gasUsed : Nat) : AIMDState :=
  let adjustment := s.learningRate *
    ((gasUsed : ℚ) - (cfg.TargetBlockSize : ℚ)) / (cfg.TargetBlockSize : ℚ)
  let deltaAdjustment := cfg.Delta *
    ((NetGasDelta s.blocks cfg.WindowSize cfg.TargetBlockSize : Int) : ℚ)
  let newBaseFee := (s.baseFee : ℚ) * (1 + adjustment) + deltaAdjustment
  let newBaseFee := if newBaseFee < (cfg.MinBaseFee : ℚ) then (cfg.MinBaseFee : ℚ) else newBaseFee
  { s with baseFee := uint64OfFloat newBaseFee }

/-- Go `AIMDFeeAdjuster.ProcessBlock`: append the block; no-op until the
window is full, then adjust learning rate and base fee. -/
def aimdProcessBlock (cfg : AIMDConfig) (s : AIMDState) (gasUsed : Nat) : AIMDState :=
  let s : AIMDState := { s with blocks := s.blocks ++
      [{ Number := s.blocks.length + 1, GasUsed := gasUsed, BaseFee := s.baseFee }] }
  if s.blocks.length < cfg.WindowSize then s
  else aimdAdjustBaseFee cfg (aimdAdjustLearningRate cfg s) gasUsed

/-- Repeated `ProcessBlock` over an input sequence. -/
def aimdRun (cfg : AIMDConfig) (inputs : List Nat) : AIMDState :=
  inputs.foldl (aimdProcessBlock cfg) (aimdNew cfg)

/-- Go `AIMDFeeAdjuster.GetMaxBlockSize`. -/
def aimdGetMaxBlockSize (cfg : AIMDConfig) : Nat :=
  CalculateMaxBlockSize cfg.TargetBlockSize cfg.BurstMultiplier

/-- Go `AIMDFeeAdjuster.GetCurrentState`. -/
def aimdGetCurrentState (cfg : AIMDConfig) (s : AIMDState) : State :=
  let targetUtilization :=
    if s.blocks.length ≥ cfg.WindowSize then
      CalculateTargetUtilization s.blocks cfg.WindowSize cfg.TargetBlockSize
    else 0
  let burstUtilization :=
    if s.blocks.length ≥ cfg.WindowSize then
      CalculateBurstUtilization s.blocks cfg.WindowSize (aimdGetMaxBlockSize cfg)
    else 0
  { BaseFee := s.baseFee, LearningRate := s.learningRate,
    TargetUtilization := targetUtilization, BurstUtilization := burstUtilization }

/-- Go `AIMDFeeAdjuster.Reset`. -/
def aimdReset (cfg : AIMDConfig) (_ : AIMDState) : AIMDState :=
  { blocks := [], learningRate := cfg.InitialLearningRate, baseFee := cfg.InitialBaseFee }

/-! ## EIP-1559 fee adjuster (`EIP1559FeeAdjuster`) -/

/-- Go `simulator.EIP1559Config`. -/
structure EIP1559Config where
  TargetBlockSize : Nat
  BurstMultiplier : ℚ
  InitialBaseFee : Nat
  MinBaseFee : Nat
  MaxFeeChange : ℚ
deriving DecidableEq

/-- Go `simulator.DefaultEIP1559Config` (MaxFeeChange 0.125 = 1/8). -/
def DefaultEIP1559Config : EIP1559Config where
  TargetBlockSize := 15000000
  BurstMultiplier := 2
  InitialBaseFee := 1000000000
  MinBaseFee := 0
  MaxFeeChange := 1/8

/-- Mutable state of `EIP1559FeeAdjuster`. -/
structure EIP1559State where
  blocks : List Block
  baseFee : Nat
deriving DecidableEq

/-- Go `NewEIP1559FeeAdjuster`. -/
def eipNew (cfg : EIP1559Config) : EIP1559State :=
  { blocks := [], baseFee := cfg.InitialBaseFee }

/-- Go `EIP1559FeeAdjuster.adjustBaseFeeEIP1559`: int64 arithmetic with
Go's truncating division (`Int.tdiv`), clamped below by the minimum fee. -/
def adjustBaseFeeEIP1559 (cfg : EIP1559Config) (baseFee : Nat) (gasUsed : Nat) : Nat :=
  if gasUsed = cfg.TargetBlockSize then baseFee
  else
    let gasUsedDelta : Int := (gasUsed : Int) - (cfg.TargetBlockSize : Int)
    let baseFeeChange : Int :=
      Int.tdiv (Int.tdiv ((baseFee : Int) * gasUsedDelta) (cfg.TargetBlockSize : Int)) 8
    let newBaseFee : Int := (baseFee : Int) + baseFeeChange
    let newBaseFee : Int :=
      if newBaseFee < (cfg.MinBaseFee : Int) then (cfg.MinBaseFee : Int) else newBaseFee
    newBaseFee.toNat

/-- Go `EIP1559FeeAdjuster.ProcessBlock`. -/
def eipProcessBlock (cfg : EIP1559Config) (s : EIP1559State) (gasUsed : Nat) : EIP1559State :=
  let s : EIP1559State := { s with blocks := s.blocks ++
      [{ Number := s.blocks.length + 1, GasUsed := gasUsed, BaseFee := s.baseFee }] }
  { s with baseFee := adjustBaseFeeEIP1559 cfg s.baseFee gasUsed }

/-- Repeated `ProcessBlock` over an input sequence. -/
def eipRun (cfg : EIP1559Config) (inputs : List Nat) : EIP1559State :=
  inputs.foldl (eipProcessBlock cfg) (eipNew cfg)

/-- Go `EIP1559FeeAdjuster.GetMaxBlockSize`. -/
def eipGetMaxBlockSize (cfg : EIP1559Config) : Nat :=
  CalculateMaxBlockSize cfg.TargetBlockSize cfg.BurstMultiplier

/-- Go `EIP1559FeeAdjuster.GetCurrentState`: last-block (not windowed)
utilizations, and the fixed configured max-fee-change as the reported
learning rate. -/
def eipGetCurrentState (cfg : EIP1559Config) (s : EIP1559State) : State :=
  let lastUtil : ℚ × ℚ :=
    match s.blocks.getLast? with
    | some lastBlock =>
        ((lastBlock.GasUsed : ℚ) / (cfg.TargetBlockSize : ℚ),
         (lastBlock.GasUsed : ℚ) / (eipGetMaxBlockSize cfg : ℚ))
    | none => (0, 0)
  { BaseFee := s.baseFee, LearningRate := cfg.MaxFeeChange,
    TargetUtilization := lastUtil.1, BurstUtilization := lastUtil.2 }

/-- Go `EIP1559FeeAdjuster.Reset`. -/
def eipReset (cfg : EIP1559Config) (_ : EIP1559State) : EIP1559State :=
  { blocks := [], baseFee := cfg.InitialBaseFee }

/-! ## PID fee adjuster (`PIDFeeAdjuster`) -/

/-- Go `simulator.PIDConfig`. -/
structure PIDConfig where
  TargetBlockSize : Nat
  BurstMultiplier : ℚ
  InitialBaseFee : Nat
  MinBaseFee : Nat
  Kp : ℚ
  Ki : ℚ
  Kd : ℚ
  MaxIntegral : ℚ
  MinIntegral : ℚ
  MaxFeeChange : ℚ
  WindowSize : Nat
deriving DecidableEq

/-- Go `simulator.DefaultPIDConfig` (Kp 0.1, Ki 0.01, Kd 0.05,
integral bounds ±1000, MaxFeeChange 0.25, window 3). -/
def DefaultPIDConfig : PIDConfig where
  TargetBlockSize := 15000000
  BurstMultiplier := 2
  InitialBaseFee := 1000000000
  MinBaseFee := 0
  Kp := 1/10
  Ki := 1/100
  Kd := 1/20
  MaxIntegral := 1000
  MinIntegral := -1000
  MaxFeeChange := 1/4
  WindowSize := 3

/-- Mutable state of `PIDFeeAdjuster`. -/
structure PIDState where
  blocks : List Block
  baseFee : Nat
  integral : ℚ
  lastError : ℚ
  errorHistory : List ℚ
deriving DecidableEq

/-- Go `NewPIDFeeAdjuster`. -/
def pidNew (cfg : PIDConfig) : PIDState :=
  { blocks := [], baseFee := cfg.InitialBaseFee,
    integral := 0, lastError := 0, errorHistory := [] }

/-- Go `PIDFeeAdjuster.updatePIDState`: windup-clamped integral, error
pushed onto a history trimmed to `WindowSize`. -/
def pidUpdatePIDState (cfg : PIDConfig) (s : PIDState) (delta : ℚ) : PIDState :=
  let integral := ClampFloat64 (s.integral + delta) cfg.MinIntegral cfg.MaxIntegral
  let errorHistory := s.errorHistory ++ [delta]
  let errorHistory :=
    if errorHistory.length > cfg.WindowSize then errorHistory.drop 1 else errorHistory
  { s with
    integral := integral, errorHistory := errorHistory, lastError := delta }

/-- Go `PIDFeeAdjuster.calculateDerivative`: two-point difference below the
window, linear-regression slope once the window is full (with the 1e-10
degenerate-denominator guard). -/
def pidCalculateDerivative (cfg : PIDConfig) (s : PIDState) : ℚ :=
  if s.errorHistory.length < 2 then 0
  else if s.errorHistory.length < cfg.WindowSize then
    s.errorHistory.getD (s.errorHistory.length - 1) 0 -
      s.errorHistory.getD (s.errorHistory.length - 2) 0
  else
    let n : ℚ := s.errorHistory.length
    let xs := (List.range s.errorHistory.length).map (fun i => (i : ℚ))
    let sumX := xs.sum
    let sumY := s.errorHistory.sum
    let sumXY := ((xs.zip s.errorHistory).map (fun p => p.1 * p.2)).sum
    let sumX2 := (xs.map (fun x => x * x)).sum
    let denominator := n * sumX2 - sumX * sumX
    if |denominator| < 1/10000000000 then 0
    else (n * sumXY - sumX * sumY) / denominator

/-- Go `PIDFeeAdjuster.adjustBaseFeePID`. -/
def adjustBaseFeePID (cfg : PIDConfig) (s : PIDState) (error : ℚ) : PIDState :=
  let proportional := cfg.Kp * error
  let integral := cfg.Ki * s.integral
  let derivative := cfg.Kd * pidCalculateDerivative cfg s
  let controlOutput := proportional + integral + derivative
  let controlOutput := ClampFloat64 controlOutput (-cfg.MaxFeeChange) cfg.MaxFeeChange
  let newBaseFee := (s.baseFee : ℚ) * (1 + controlOutput)
  let newBaseFee := if newBaseFee < (cfg.MinBaseFee : ℚ) then (cfg.MinBaseFee : ℚ) else newBaseFee
  { s with baseFee := uint64OfFloat newBaseFee }

/-- Go `PIDFeeAdjuster.ProcessBlock`. -/
def pidProcessBlock (cfg : PIDConfig) (s : PIDState) (gasUsed : Nat) : PIDState :=
  let s : PIDState := { s with blocks := s.blocks ++
      [{ Number := s.blocks.length + 1, GasUsed := gasUsed, BaseFee := s.baseFee }] }
  let delta := (gasUsed : ℚ) / (cfg.TargetBlockSize : ℚ) - 1
  let s := pidUpdatePIDState cfg s delta
  adjustBaseFeePID cfg s delta

/-- Repeated `ProcessBlock` over an input sequence. -/
def pidRun (cfg : PIDConfig) (inputs : List Nat) : PIDState :=
  inputs.foldl (pidProcessBlock cfg) (pidNew cfg)

/-- Go `PIDFeeAdjuster.GetMaxBlockSize`. -/
def pidGetMaxBlockSize (cfg : PIDConfig) : Nat :=
  CalculateMaxBlockSize cfg.TargetBlockSize cfg.BurstMultiplier

/-- Go `PIDFeeAdjuster.GetCurrentState`: windowed utilizations over
`min WindowSize (number of blocks)`, and the effective learning rate
`|relative base-fee change| / |excess utilization|` computed from the last
two recorded blocks (with the 1e-10 guard on the excess). -/
def pidGetCurrentState (cfg : PIDConfig) (s : PIDState) : State :=
  let windowSize := if cfg.WindowSize > s.blocks.length then s.blocks.length else cfg.WindowSize
  let targetUtilization :=
    if s.blocks.length > 0 then
      CalculateTargetUtilization s.blocks windowSize cfg.TargetBlockSize
    else 0
  let burstUtilization :=
    if s.blocks.length > 0 then
      CalculateBurstUtilization s.blocks windowSize (pidGetMaxBlockSize cfg)
    else 0
  let effectiveLearningRate :=
    if s.blocks.length ≥ 2 then
      let lastBlock := s.blocks.getD (s.blocks.length - 1) { Number := 0, GasUsed := 0, BaseFee := 0 }
      let prevBlock := s.blocks.getD (s.blocks.length - 2) { Number := 0, GasUsed := 0, BaseFee := 0 }
      let baseFeeChange :=
        if lastBlock.BaseFee > prevBlock.BaseFee then
          ((lastBlock.BaseFee - prevBlock.BaseFee : Nat) : ℚ) / (prevBlock.BaseFee : ℚ)
        else
          ((prevBlock.BaseFee - lastBlock.BaseFee : Nat) : ℚ) / (prevBlock.BaseFee : ℚ)
      let excessUtilization :=
        ((lastBlock.GasUsed : ℚ) - (cfg.TargetBlockSize : ℚ)) / (cfg.TargetBlockSize : ℚ)
      if |excessUtilization| > 1/10000000000 then |baseFeeChange / excessUtilization|
      else 0
    else 0
  { BaseFee := s.baseFee, LearningRate := effectiveLearningRate,
    TargetUtilization := targetUtilization, BurstUtilization := burstUtilization }

/-- Go `PIDFeeAdjuster.Reset`. -/
def pidReset (cfg : PIDConfig) (_ : PIDState) : PIDState :=
  { blocks := [], baseFee := cfg.InitialBaseFee,
    integral := 0, lastError := 0, errorHistory := [] }

/-! ## Parameter updates and the tactical layer (`SequencerFastPID`) -/

/-- Go `simulator.SequencerParamUpdate` (the wall-clock `Timestamp` and the
formatted `Reason` string are omitted; they do not influence control). -/
structure SequencerParamUpdate where
  NewKp : ℚ
  NewKi : ℚ
  NewKd : ℚ
  NewTargetUtil : ℚ
  NewMaxFeeChange : ℚ
  ThrottlingActive : Bool
  ThrottlingIntensity : ℚ
deriving DecidableEq

/-- Go `simulator.SequencerFastPIDConfig` (the wall-clock `UpdateFrequency`
is omitted; parameter updates are checked at every `ProcessBlock`). -/
structure SequencerFastPIDConfig where
  TargetBlockSize : Nat
  BurstMultiplier : ℚ
  InitialBaseFee : Nat
  MinBaseFee : Nat
  Kp : ℚ
  Ki : ℚ
  Kd : ℚ
  MaxIntegral : ℚ
  MinIntegral : ℚ
  MaxFeeChange : ℚ
  WindowSize : Nat
  ResponsivenessBoost : ℚ
  EmergencyThreshold : ℚ
  EmergencyMaxChange : ℚ
  InitialTargetUtilization : ℚ
  UtilizationTolerance : ℚ
deriving DecidableEq

/-- Go `simulator.DefaultSequencerFastPIDConfig` (Kp 0.8, Ki 0.15, Kd 0.25,
integral bounds ±5, MaxFeeChange 0.25, window 3, boost 1.5, emergency
threshold 1.5, emergency max change 0.5, target utilization 1, tolerance 0.05). -/
def DefaultSequencerFastPIDConfig : SequencerFastPIDConfig where
  TargetBlockSize := 15000000
  BurstMultiplier := 2
  InitialBaseFee := 1000000000
  MinBaseFee := 0
  Kp := 4/5
  Ki := 3/20
  Kd := 1/4
  MaxIntegral := 5
  MinIntegral := -5
  MaxFeeChange := 1/4
  WindowSize := 3
  ResponsivenessBoost := 3/2
  EmergencyThreshold := 3/2
  EmergencyMaxChange := 1/2
  InitialTargetUtilization := 1
  UtilizationTolerance := 1/20

/-- Mutable state of `SequencerFastPID`; `parameterUpdates` models the
capacity-10 inbound Go channel as a FIFO queue (front = oldest). -/
structure FastPIDState where
  blocks : List Block
  baseFee : Nat
  integral : ℚ
  lastError : ℚ
  errorHistory : List ℚ
  currentKp : ℚ
  currentKi : ℚ
  currentKd : ℚ
  currentTargetUtil : ℚ
  currentMaxFeeChange : ℚ
  throttlingActive : Bool
  throttlingIntensity : ℚ
  emergencyMode : Bool
  consecutiveHighUtil : Nat
  consecutiveLowUtil : Nat
  responsivenessBoost : ℚ
  parameterUpdates : List SequencerParamUpdate
deriving DecidableEq

/-- Go `NewSequencerFastPID`. -/
def fastNew (cfg : SequencerFastPIDConfig) : FastPIDState :=
  { blocks := [], baseFee := cfg.InitialBaseFee,
    integral := 0, lastError := 0, errorHistory := [],
    currentKp := cfg.Kp, currentKi := cfg.Ki, currentKd := cfg.Kd,
    currentTargetUtil := cfg.InitialTargetUtilization,
    currentMaxFeeChange := cfg.MaxFeeChange,
    throttlingActive := false, throttlingIntensity := 0,
    emergencyMode := false, consecutiveHighUtil := 0, consecutiveLowUtil := 0,
    responsivenessBoost := 1, parameterUpdates := [] }

/-- Go `SequencerFastPID.applyParameterUpdate`. -/
def fastApplyParameterUpdate (s : FastPIDState) (update : SequencerParamUpdate) : FastPIDState :=
  { s with
    currentKp := update.NewKp, currentKi := update.NewKi, currentKd := update.NewKd,
    currentTargetUtil := update.NewTargetUtil,
    currentMaxFeeChange := update.NewMaxFeeChange,
    throttlingActive := update.ThrottlingActive,
    throttlingIntensity := update.ThrottlingIntensity }

/-- Go `SequencerFastPID.checkParameterUpdates`: non-blocking receive
(`select default:`) applying at most one pending update. -/
def fastCheckParameterUpdates (s : FastPIDState) : FastPIDState :=
  match s.parameterUpdates with
  | update :: rest => { fastApplyParameterUpdate s update with parameterUpdates := rest }
  | [] => s

/-- Go `SequencerFastPID.updateEmergencyMode`: enter after ≥2 accumulated
above-threshold blocks, exit after ≥3 accumulated below-0.8 blocks; blocks
with `0.8 ≤ utilization ≤ threshold` leave counters and mode untouched. -/
def updateEmergencyMode (cfg : SequencerFastPIDConfig) (s : FastPIDState)
    (utilization : ℚ) : FastPIDState :=
  if utilization > cfg.EmergencyThreshold then
    let s := { s with consecutiveHighUtil := s.consecutiveHighUtil + 1, consecutiveLowUtil := 0 }
    if s.consecutiveHighUtil ≥ 2 ∧ ¬s.emergencyMode then { s with emergencyMode := true } else s
  else if utilization < 4/5 then
    let s := { s with consecutiveLowUtil := s.consecutiveLowUtil + 1, consecutiveHighUtil := 0 }
    if s.consecutiveLowUtil ≥ 3 ∧ s.emergencyMode then { s with emergencyMode := false } else s
  else s

/-- Go `SequencerFastPID.updateResponsiveness`: boost above 120%
utilization, dampen (0.8) below 80%, neutral otherwise. -/
def updateResponsiveness (cfg : SequencerFastPIDConfig) (s : FastPIDState)
    (utilization : ℚ) : FastPIDState :=
  if utilization > 6/5 then { s with responsivenessBoost := cfg.ResponsivenessBoost }
  else if utilization < 4/5 then { s with responsivenessBoost := 4/5 }
  else { s with responsivenessBoost := 1 }

/-- Go `SequencerFastPID.updatePIDState`. -/
def fastUpdatePIDState (cfg : SequencerFastPIDConfig) (s : FastPIDState) (error : ℚ) :
    FastPIDState :=
  let integral := ClampFloat64 (s.integral + error) cfg.MinIntegral cfg.MaxIntegral
  let errorHistory := s.errorHistory ++ [error]
  let errorHistory :=
    if errorHistory.length > cfg.WindowSize then errorHistory.drop 1 else errorHistory
  { s with
    integral := integral, errorHistory := errorHistory, lastError := error }

/-- Go `SequencerFastPID.calculateDerivative`: simple two-point difference. -/
def fastCalculateDerivative (s : FastPIDState) : ℚ :=
  if s.errorHistory.length < 2 then 0
  else
    s.errorHistory.getD (s.errorHistory.length - 1) 0 -
      s.errorHistory.getD (s.errorHistory.length - 2) 0

/-- Go `SequencerFastPID.adjustBaseFeeFastPID`: boosted gains, emergency
widening of the max change, throttling shrinking of the max change and
scaling of negative outputs, clamp, multiplicative fee update, minimum-fee
clamp (the `utilization` argument is accepted but unused, as in the source). -/
def adjustBaseFeeFastPID (cfg : SequencerFastPIDConfig) (s : FastPIDState)
    (error : ℚ) (utilization : ℚ) : FastPIDState :=
  let _ := utilization
  let kp := s.currentKp * s.responsivenessBoost
  let ki := s.currentKi * s.responsivenessBoost
  let kd := s.currentKd * s.responsivenessBoost
  let proportional := kp * error
  let integral := ki * s.integral
  let derivative := kd * fastCalculateDerivative s
  let controlOutput := proportional + integral + derivative
  let maxChange := s.currentMaxFeeChange
  let maxChange := if s.emergencyMode then max maxChange cfg.EmergencyMaxChange else maxChange
  let maxChange :=
    if s.throttlingActive then maxChange * (1 - s.throttlingIntensity * (1/2)) else maxChange
  let controlOutput :=
    if s.throttlingActive ∧ controlOutput < 0 then
      controlOutput * (1 - s.throttlingIntensity * (3/10))
    else controlOutput
  let controlOutput := ClampFloat64 controlOutput (-maxChange) maxChange
  let newBaseFee := (s.baseFee : ℚ) * (1 + controlOutput)
  let newBaseFee := if newBaseFee < (cfg.MinBaseFee : ℚ) then (cfg.MinBaseFee : ℚ) else newBaseFee
  { s with baseFee := uint64OfFloat newBaseFee }

/-- Go `SequencerFastPID.ProcessBlock`. -/
def fastProcessBlock (cfg : SequencerFastPIDConfig) (s : FastPIDState) (gasUsed : Nat) :
    FastPIDState :=
  let s := fastCheckParameterUpdates s
  let s : FastPIDState := { s with blocks := s.blocks ++
      [{ Number := s.blocks.length + 1, GasUsed := gasUsed, BaseFee := s.baseFee }] }
  let targetUtil := s.currentTargetUtil
  let currentUtilization := (gasUsed : ℚ) / (cfg.TargetBlockSize : ℚ)
  let error := currentUtilization - targetUtil
  let s := updateEmergencyMode cfg s currentUtilization
  let s := updateResponsiveness cfg s currentUtilization
  let s := fastUpdatePIDState cfg s error
  adjustBaseFeeFastPID cfg s error currentUtilization

/-- Repeated `ProcessBlock` over an input sequence. -/
def fastRun (cfg : SequencerFastPIDConfig) (inputs : List Nat) : FastPIDState :=
  inputs.foldl (fastProcessBlock cfg) (fastNew cfg)

/-- Go `SequencerFastPID.GetMaxBlockSize`. -/
def fastGetMaxBlockSize (cfg : SequencerFastPIDConfig) : Nat :=
  CalculateMaxBlockSize cfg.TargetBlockSize cfg.BurstMultiplier

/-- Go `SequencerFastPID.calculateEffectiveLearningRate`. -/
def calculateEffectiveLearningRate (s : FastPIDState) : ℚ :=
  let baseRate := (s.currentKp + s.currentKi + s.currentKd) / 3
  let baseRate := if s.emergencyMode then baseRate * (3/2) else baseRate
  baseRate * s.responsivenessBoost

/-- Go `SequencerFastPID.GetCurrentState`. -/
def fastGetCurrentState (cfg : SequencerFastPIDConfig) (s : FastPIDState) : State :=
  let windowSize := if cfg.WindowSize > s.blocks.length then s.blocks.length else cfg.WindowSize
  let targetUtilization :=
    if s.blocks.length > 0 then
      CalculateTargetUtilization s.blocks windowSize cfg.TargetBlockSize
    else 0
  let burstUtilization :=
    if s.blocks.length > 0 then
      CalculateBurstUtilization s.blocks windowSize (fastGetMaxBlockSize cfg)
    else 0
  { BaseFee := s.baseFee, LearningRate := calculateEffectiveLearningRate s,
    TargetUtilization := targetUtilization, BurstUtilization := burstUtilization }

/-- Go `SequencerFastPID.Reset`: restores every mutable field; the pending
`parameterUpdates` queue is carried over unchanged (the source never drains
the channel on reset). -/
def fastReset (cfg : SequencerFastPIDConfig) (s : FastPIDState) : FastPIDState :=
  { blocks := [], baseFee := cfg.InitialBaseFee,
    integral := 0, lastError := 0, errorHistory := [],
    currentKp := cfg.Kp, currentKi := cfg.Ki, currentKd := cfg.Kd,
    currentTargetUtil := cfg.InitialTargetUtilization,
    currentMaxFeeChange := cfg.MaxFeeChange,
    throttlingActive := false, throttlingIntensity := 0,
    emergencyMode := false, consecutiveHighUtil := 0, consecutiveLowUtil := 0,
    responsivenessBoost := 1, parameterUpdates := s.parameterUpdates }

/-- Go `SequencerFastPID.SendParameterUpdate`: non-blocking send; on a full
capacity-10 channel the oldest pending update is received away and the new
one enqueued. -/
def fastSendParameterUpdate (queue : List SequencerParamUpdate)
    (update : SequencerParamUpdate) : List SequencerParamUpdate :=
  if queue.length < 10 then queue ++ [update]
  else queue.drop 1 ++ [update]

/-! ## Strategic layer (`BatcherSlowPID`) -/

/-- Go `simulator.DAMetrics` (wall-clock `Timestamp` omitted). -/
structure DAMetrics where
  L1GasPrice : Nat
  BlobPrice : Nat
  DAUsage : Nat
  DACapacity : Nat
  BatchCost : Nat
  BatchEfficiency : ℚ
deriving DecidableEq

/-- Go `simulator.BatcherSlowPIDConfig` (wall-clock `UpdateFrequency` and
`L1ResponseWindow` omitted; the update trigger is an oracle input, and
`L1ResponseWindow` is never read by the source). -/
structure BatcherSlowPIDConfig where
  TargetBlockSize : Nat
  BurstMultiplier : ℚ
  InitialBaseFee : Nat
  MinBaseFee : Nat
  DAWindowSize : Nat
  Kp : ℚ
  Ki : ℚ
  Kd : ℚ
  TargetDAUtilization : ℚ
  MaxDAUtilization : ℚ
  DABudgetPerHour : Nat
  SequencerKpRange : ℚ × ℚ
  SequencerKiRange : ℚ × ℚ
  SequencerKdRange : ℚ × ℚ
  MaxParameterChange : ℚ
  MaxIntegral : ℚ
  MinIntegral : ℚ
deriving DecidableEq

/-- Go `simulator.DefaultBatcherSlowPIDConfig` (Kp 2.0, Ki 0.306, Kd 0.3,
target DA utilization 0.75, max 0.90, Kp range [0.1, 2.0], Ki range
[0.01, 0.5], Kd range [0.005, 0.2], max parameter change 0.2,
integral bounds ±10). -/
def DefaultBatcherSlowPIDConfig : BatcherSlowPIDConfig where
  TargetBlockSize := 15000000
  BurstMultiplier := 2
  InitialBaseFee := 1000000000
  MinBaseFee := 0
  DAWindowSize := 10
  Kp := 2
  Ki := 153/500
  Kd := 3/10
  TargetDAUtilization := 3/4
  MaxDAUtilization := 9/10
  DABudgetPerHour := 100000000000000000
  SequencerKpRange := (1/10, 2)
  SequencerKiRange := (1/100, 1/2)
  SequencerKdRange := (1/200, 1/5)
  MaxParameterChange := 1/5
  MaxIntegral := 10
  MinIntegral := -10

/-- Mutable state of `BatcherSlowPID`; `parameterUpdates` models the
capacity-10 outbound Go channel as a FIFO queue (front = oldest).
The `l1Trends`, `daCostHist`, `costPerHour` and `daUtilAvg` fields of the
source are initialized and reset but never written elsewhere; `daUtilAvg`
(always 0, reported as the learning rate) is kept, the others are omitted. -/
structure SlowPIDState where
  blocks : List Block
  baseFee : Nat
  daMetrics : List DAMetrics
  integral : ℚ
  lastError : ℚ
  errorHistory : List ℚ
  sequencerParams : SequencerParamUpdate
  daUtilAvg : ℚ
  emergencyMode : Bool
  parameterUpdates : List SequencerParamUpdate
deriving DecidableEq

/-- The initial sequencer parameters installed by Go `NewBatcherSlowPID`
(Kp 0.8, Ki 0.15, Kd 0.05, target utilization 1.0, max fee change 0.25). -/
def initialSequencerParams : SequencerParamUpdate :=
  { NewKp := 4/5, NewKi := 3/20, NewKd := 1/20,
    NewTargetUtil := 1, NewMaxFeeChange := 1/4,
    ThrottlingActive := false, ThrottlingIntensity := 0 }

/-- Go `NewBatcherSlowPID`. -/
def slowNew (cfg : BatcherSlowPIDConfig) : SlowPIDState :=
  { blocks := [], baseFee := cfg.InitialBaseFee, daMetrics := [],
    integral := 0, lastError := 0, errorHistory := [],
    sequencerParams := initialSequencerParams,
    daUtilAvg := 0, emergencyMode := false, parameterUpdates := [] }

/-- Go `BatcherSlowPID.simulateDAMetrics`: deterministic L1/DA metrics
derived from the block's gas usage (base L1 gas 20 Gwei, blob price
L1/16, DA usage gasUsed/1000 bytes against a 128 KB capacity, batch cost
100k gas at the L1 price). -/
def simulateDAMetrics (cfg : BatcherSlowPIDConfig) (block : Block) : DAMetrics :=
  let baseL1Gas : Nat := 20000000000
  let utilizationFactor : ℚ := (block.GasUsed : ℚ) / (cfg.TargetBlockSize : ℚ)
  let l1GasPrice := uint64OfFloat ((baseL1Gas : ℚ) * (1 + utilizationFactor * (1/2)))
  let blobPrice := l1GasPrice / 16
  let daUsage := block.GasUsed / 1000
  let daCapacity : Nat := 131072
  let batchCost := l1GasPrice * 100000
  let efficiency := min ((daUsage : ℚ) / (daCapacity : ℚ)) 1
  { L1GasPrice := l1GasPrice, BlobPrice := blobPrice, DAUsage := daUsage,
    DACapacity := daCapacity, BatchCost := batchCost, BatchEfficiency := efficiency }

/-- Go `BatcherSlowPID.updateBaseFeeEIP1559`: the same consensus-rule
update as `adjustBaseFeeEIP1559`. -/
def updateBaseFeeEIP1559 (cfg : BatcherSlowPIDConfig) (baseFee : Nat) (gasUsed : Nat) : Nat :=
  if gasUsed = cfg.TargetBlockSize then baseFee
  else
    let gasUsedDelta : Int := (gasUsed : Int) - (cfg.TargetBlockSize : Int)
    let baseFeeChange : Int :=
      Int.tdiv (Int.tdiv ((baseFee : Int) * gasUsedDelta) (cfg.TargetBlockSize : Int)) 8
    let newBaseFee : Int := (baseFee : Int) + baseFeeChange
    let newBaseFee : Int :=
      if newBaseFee < (cfg.MinBaseFee : Int) then (cfg.MinBaseFee : Int) else newBaseFee
    newBaseFee.toNat

/-- Go `BatcherSlowPID.calculateCurrentDAUtilization`: average
usage/capacity over the retained DA metrics. -/
def calculateCurrentDAUtilization (s : SlowPIDState) : ℚ :=
  if s.daMetrics.length = 0 then 0
  else
    (s.daMetrics.map (fun m => (m.DAUsage : ℚ) / (m.DACapacity : ℚ))).sum /
      (s.daMetrics.length : ℚ)

/-- Go `BatcherSlowPID.updatePIDState`. -/
def slowUpdatePIDState (cfg : BatcherSlowPIDConfig) (s : SlowPIDState) (error : ℚ) :
    SlowPIDState :=
  let integral := ClampFloat64 (s.integral + error) cfg.MinIntegral cfg.MaxIntegral
  let errorHistory := s.errorHistory ++ [error]
  let errorHistory :=
    if errorHistory.length > cfg.DAWindowSize then errorHistory.drop 1 else errorHistory
  { s with
    integral := integral, errorHistory := errorHistory, lastError := error }

/-- Go `BatcherSlowPID.calculateDerivative`: simple two-point difference. -/
def slowCalculateDerivative (s : SlowPIDState) : ℚ :=
  if s.errorHistory.length < 2 then 0
  else
    s.errorHistory.getD (s.errorHistory.length - 1) 0 -
      s.errorHistory.getD (s.errorHistory.length - 2) 0

/-- Go `BatcherSlowPID.calculateStrategicOutput`. -/
def calculateStrategicOutput (cfg : BatcherSlowPIDConfig) (s : SlowPIDState) (error : ℚ) : ℚ :=
  cfg.Kp * error + cfg.Ki * s.integral + cfg.Kd * slowCalculateDerivative s

/-- Go `BatcherSlowPID.clampParameterChange`: rate-limit a proposed
parameter against the previously sent value. -/
def clampParameterChange (current desired maxChange : ℚ) : ℚ :=
  let change := desired - current
  let maxAbsChange := current * maxChange
  if change > maxAbsChange then current + maxAbsChange
  else if change < -maxAbsChange then current - maxAbsChange
  else desired

/-- Go `BatcherSlowPID.calculateSequencerParameters`: three-tier policy on
DA utilization (emergency / moderate pressure / low pressure), then the
rate limit against the previously sent parameters, then the absolute
ranges. Returns the update together with the new `emergencyMode` flag
(which the source mutates in the emergency and low-pressure branches; the
`strategicOutput` argument is accepted but unused, as in the source). -/
def calculateSequencerParameters (cfg : BatcherSlowPIDConfig) (s : SlowPIDState)
    (strategicOutput : ℚ) (currentDAUtil : ℚ) : SequencerParamUpdate × Bool :=
  let _ := strategicOutput
  let base : ℚ × ℚ × ℚ × ℚ × ℚ × Bool × ℚ × Bool :=
    if currentDAUtil > cfg.MaxDAUtilization then
      -- emergency mode: aggressive throttling
      (3/2, 3/20, 1/20, 7/10, 1/4, true,
        min (1/2) ((currentDAUtil - cfg.MaxDAUtilization) * 2), true)
    else if currentDAUtil > cfg.TargetDAUtilization then
      -- moderate pressure: tune for efficiency
      let pressureFactor := (currentDAUtil - cfg.TargetDAUtilization) /
        (cfg.MaxDAUtilization - cfg.TargetDAUtilization)
      (4/5 + (7/10) * pressureFactor, 3/20 - (1/20) * pressureFactor, 1/20, 1,
        1/4 + (3/20) * pressureFactor, false, 0, s.emergencyMode)
    else
      -- low pressure: optimize for user experience
      (3/5, 1/5, 1/20, 1, 1/5, false, 0, false)
  let (newKp, newKi, newKd, newTargetUtil, newMaxFeeChange, throttlingActive,
    throttlingIntensity, emergencyMode) := base
  let maxChange := cfg.MaxParameterChange
  let newKp := clampParameterChange s.sequencerParams.NewKp newKp maxChange
  let newKi := clampParameterChange s.sequencerParams.NewKi newKi maxChange
  let newKd := clampParameterChange s.sequencerParams.NewKd newKd maxChange
  let newKp := ClampFloat64 newKp cfg.SequencerKpRange.1 cfg.SequencerKpRange.2
  let newKi := ClampFloat64 newKi cfg.SequencerKiRange.1 cfg.SequencerKiRange.2
  let newKd := ClampFloat64 newKd cfg.SequencerKdRange.1 cfg.SequencerKdRange.2
  ({ NewKp := newKp, NewKi := newKi, NewKd := newKd,
     NewTargetUtil := newTargetUtil, NewMaxFeeChange := newMaxFeeChange,
     ThrottlingActive := throttlingActive, ThrottlingIntensity := throttlingIntensity },
   emergencyMode)

/-- Go `BatcherSlowPID.sendParameterUpdate`: record the update as the
current sequencer parameters, then a non-blocking send — on a full
capacity-10 channel the new update is skipped (dropped), with a warning. -/
def slowSendParameterUpdate (s : SlowPIDState) (params : SequencerParamUpdate) : SlowPIDState :=
  let s := { s with sequencerParams := params }
  if s.parameterUpdates.length < 10 then
    { s with parameterUpdates := s.parameterUpdates ++ [params] }
  else s

/-- Go `BatcherSlowPID.updateStrategicParameters`. -/
def updateStrategicParameters (cfg : BatcherSlowPIDConfig) (s : SlowPIDState) : SlowPIDState :=
  if s.daMetrics.length = 0 then s
  else
    let currentDAUtil := calculateCurrentDAUtilization s
    let daUtilError := currentDAUtil - cfg.TargetDAUtilization
    let s := slowUpdatePIDState cfg s daUtilError
    let strategicOutput := calculateStrategicOutput cfg s daUtilError
    let np := calculateSequencerParameters cfg s strategicOutput currentDAUtil
    let s := { s with emergencyMode := np.2 }
    slowSendParameterUpdate s np.1

/-- Go `BatcherSlowPID.ProcessBlock`; `doUpdate` is the oracle for the
wall-clock trigger `time.Since(lastUpdateTime) >= UpdateFrequency`. -/
def slowProcessBlock (cfg : BatcherSlowPIDConfig) (s : SlowPIDState)
    (gasUsed : Nat) (doUpdate : Bool) : SlowPIDState :=
  let block : Block := { Number := s.blocks.length + 1, GasUsed := gasUsed, BaseFee := s.baseFee }
  let s : SlowPIDState := { s with blocks := s.blocks ++ [block] }
  let daMetrics := s.daMetrics ++ [simulateDAMetrics cfg block]
  let daMetrics := if daMetrics.length > cfg.DAWindowSize then daMetrics.drop 1 else daMetrics
  let s := { s with daMetrics := daMetrics }
  let s := { s with baseFee := updateBaseFeeEIP1559 cfg s.baseFee gasUsed }
  if doUpdate then updateStrategicParameters cfg s else s

/-- Repeated `ProcessBlock` over a sequence of (gasUsed, update-oracle) pairs. -/
def slowRun (cfg : BatcherSlowPIDConfig) (inputs : List (Nat × Bool)) : SlowPIDState :=
  inputs.foldl (fun s p => slowProcessBlock cfg s p.1 p.2) (slowNew cfg)

/-- Go `BatcherSlowPID.GetMaxBlockSize`. -/
def slowGetMaxBlockSize (cfg : BatcherSlowPIDConfig) : Nat :=
  CalculateMaxBlockSize cfg.TargetBlockSize cfg.BurstMultiplier

/-- Go `BatcherSlowPID.GetCurrentState`: windowed utilizations once
`DAWindowSize` blocks exist, and the (always-zero) `daUtilAvg` reported as
the learning rate. -/
def slowGetCurrentState (cfg : BatcherSlowPIDConfig) (s : SlowPIDState) : State :=
  let targetUtilization :=
    if s.blocks.length > 0 ∧ s.blocks.length ≥ cfg.DAWindowSize then
      CalculateTargetUtilization s.blocks cfg.DAWindowSize cfg.TargetBlockSize
    else 0
  let burstUtilization :=
    if s.blocks.length > 0 ∧ s.blocks.length ≥ cfg.DAWindowSize then
      CalculateBurstUtilization s.blocks cfg.DAWindowSize (slowGetMaxBlockSize cfg)
    else 0
  { BaseFee := s.baseFee, LearningRate := s.daUtilAvg,
    TargetUtilization := targetUtilization, BurstUtilization := burstUtilization }

/-- Go `BatcherSlowPID.Reset`: restores blocks, base fee, DA metrics, PID
state, `daUtilAvg` and `emergencyMode` — but NOT `sequencerParams` (the
rate-limit baseline) and NOT the pending `parameterUpdates` queue, which
the source leaves untouched. -/
def slowReset (cfg : BatcherSlowPIDConfig) (s : SlowPIDState) : SlowPIDState :=
  { blocks := [], baseFee := cfg.InitialBaseFee, daMetrics := [],
    integral := 0, lastError := 0, errorHistory := [],
    sequencerParams := s.sequencerParams,
    daUtilAvg := 0, emergencyMode := false, parameterUpdates := s.parameterUpdates }

/-! ## Hierarchical coordinator (`HierarchicalPID`) -/

/-- Go `simulator.HierarchicalPIDConfig` (wall-clock `UpdateInterval`
omitted; the coordination trigger is an oracle input). -/
structure HierarchicalPIDConfig where
  TargetBlockSize : Nat
  BurstMultiplier : ℚ
  InitialBaseFee : Nat
  MinBaseFee : Nat
  SlowLayerConfig : BatcherSlowPIDConfig
  FastLayerConfig : SequencerFastPIDConfig
  EnableCoordination : Bool
deriving DecidableEq

/-- Go `simulator.DefaultHierarchicalPIDConfig`. -/
def DefaultHierarchicalPIDConfig : HierarchicalPIDConfig where
  TargetBlockSize := 15000000
  BurstMultiplier := 2
  InitialBaseFee := 1000000000
  MinBaseFee := 0
  SlowLayerConfig := DefaultBatcherSlowPIDConfig
  FastLayerConfig := DefaultSequencerFastPIDConfig
  EnableCoordination := true

/-- State of `HierarchicalPID`: one strategic and one tactical instance. -/
structure HierState where
  slowLayer : SlowPIDState
  fastLayer : FastPIDState
deriving DecidableEq

/-- The slow-layer config after `NewHierarchicalPID` overwrites the shared
base fields with the hierarchical configuration's values. -/
def hierSlowConfig (cfg : HierarchicalPIDConfig) : BatcherSlowPIDConfig :=
  { cfg.SlowLayerConfig with
    TargetBlockSize := cfg.TargetBlockSize, BurstMultiplier := cfg.BurstMultiplier,
    InitialBaseFee := cfg.InitialBaseFee, MinBaseFee := cfg.MinBaseFee }

/-- The fast-layer config after `NewHierarchicalPID` overwrites the shared
base fields with the hierarchical configuration's values. -/
def hierFastConfig (cfg : HierarchicalPIDConfig) : SequencerFastPIDConfig :=
  { cfg.FastLayerConfig with
    TargetBlockSize := cfg.TargetBlockSize, BurstMultiplier := cfg.BurstMultiplier,
    InitialBaseFee := cfg.InitialBaseFee, MinBaseFee := cfg.MinBaseFee }

/-- Go `NewHierarchicalPID`. -/
def hierNew (cfg : HierarchicalPIDConfig) : HierState :=
  { slowLayer := slowNew (hierSlowConfig cfg), fastLayer := fastNew (hierFastConfig cfg) }

/-- Go `HierarchicalPID.coordinateLayers`: non-blocking receive of at most
one pending update from the slow layer's outbound channel, forwarded to
the fast layer via its drop-oldest `SendParameterUpdate`. -/
def coordinateLayers (s : HierState) : HierState :=
  match s.slowLayer.parameterUpdates with
  | paramUpdate :: rest =>
      { slowLayer := { s.slowLayer with parameterUpdates := rest },
        fastLayer := { s.fastLayer with
          parameterUpdates := fastSendParameterUpdate s.fastLayer.parameterUpdates paramUpdate } }
  | [] => s

/-- Go `HierarchicalPID.ProcessBlock`: slow layer first, then (oracle
`coordinate` standing for the wall-clock coordination-interval check, and
`EnableCoordination`) layer coordination, then the fast layer; `slowUpdate`
is the slow layer's own update-frequency oracle. -/
def hierProcessBlock (cfg : HierarchicalPIDConfig) (s : HierState)
    (gasUsed : Nat) (slowUpdate coordinate : Bool) : HierState :=
  let s := { s with
    slowLayer := slowProcessBlock (hierSlowConfig cfg) s.slowLayer gasUsed slowUpdate }
  let s := if cfg.EnableCoordination ∧ coordinate then coordinateLayers s else s
  { s with fastLayer := fastProcessBlock (hierFastConfig cfg) s.fastLayer gasUsed }

/-- Repeated `ProcessBlock` over (gasUsed, slow-oracle, coordinate-oracle). -/
def hierRun (cfg : HierarchicalPIDConfig) (inputs : List (Nat × Bool × Bool)) : HierState :=
  inputs.foldl (fun s p => hierProcessBlock cfg s p.1 p.2.1 p.2.2) (hierNew cfg)

/-- Go `HierarchicalPID.GetCurrentState`: the fast layer is authoritative. -/
def hierGetCurrentState (cfg : HierarchicalPIDConfig) (s : HierState) : State :=
  fastGetCurrentState (hierFastConfig cfg) s.fastLayer

/-- Go `HierarchicalPID.GetMaxBlockSize`. -/
def hierGetMaxBlockSize (cfg : HierarchicalPIDConfig) : Nat :=
  fastGetMaxBlockSize (hierFastConfig cfg)

/-- Go `HierarchicalPID.Reset`: resets both layers. -/
def hierReset (cfg : HierarchicalPIDConfig) (s : HierState) : HierState :=
  { slowLayer := slowReset (hierSlowConfig cfg) s.slowLayer,
    fastLayer := fastReset (hierFastConfig cfg) s.fastLayer }

/-- A sample parameter update carrying an identifying gain value, used to
distinguish updates in the channel counterexamples. -/
def mkUpdate (i : Nat) : SequencerParamUpdate :=
  { NewKp := i, NewKi := 0, NewKd := 0, NewTargetUtil := 0, NewMaxFeeChange := 0,
    ThrottlingActive := false, ThrottlingIntensity := 0 }

/-! ## General lemmas about the numeric helpers -/

/-- An invariant preserved by every step is preserved by a fold. -/
theorem foldlPreserve {S A : Type} {P : S → Prop} {f : S → A → S}
    (h : ∀ s a, P s → P (f s a)) :
    ∀ (l : List A) (s : S), P s → P (l.foldl f s) := by
  intro l
  induction l with
  | nil => exact fun s hs => hs
  | cons a t ih => exact fun s hs => ih _ (h s a hs)

/-- Truncation of a rational above a natural number stays above it. -/
theorem le_uint64OfFloat {m : Nat} {q : ℚ} (h : (m : ℚ) ≤ q) : m ≤ uint64OfFloat q :=
  Nat.le_floor h

/-- Truncation is monotone. -/
theorem uint64OfFloat_mono {a b : ℚ} (h : a ≤ b) : uint64OfFloat a ≤ uint64OfFloat b :=
  Nat.floor_mono h

/-- The minimum-fee clamp followed by truncation lands at or above the
minimum fee. -/
theorem minFee_le_uint64OfFloat_clamp (m : Nat) (q : ℚ) :
    m ≤ uint64OfFloat (if q < (m : ℚ) then (m : ℚ) else q) := by
  by_cases h : q < (m : ℚ)
  · rw [if_pos h]; exact le_uint64OfFloat le_rfl
  · rw [if_neg h]; exact le_uint64OfFloat (le_of_not_lt h)

/-- The integer minimum-fee clamp followed by `toNat` lands at or above the
minimum fee. -/
theorem minFee_le_toNat_clamp (m : Nat) (z : Int) :
    m ≤ (if z < (m : Int) then (m : Int) else z).toNat := by
  by_cases h : z < (m : Int)
  · rw [if_pos h]; omega
  · rw [if_neg h]; omega

/-! ## C5, C6 and the concrete counterexample / divergence runs -/

/-- C5: for the EIP-1559 algorithm with TargetBlockSize 15,000,000 and
InitialBaseFee 1,000,000,000 (the default configuration), processing one
block with gasUsed 30,000,000 yields a base fee of exactly 1,125,000,000 —
an increase of exactly 125,000,000 under truncating integer arithmetic. -/
theorem c5_eip1559_exactness :
    (eipGetCurrentState DefaultEIP1559Config
      (eipRun DefaultEIP1559Config [30000000])).BaseFee = 1125000000 ∧
    (eipRun DefaultEIP1559Config [30000000]).baseFee =
      DefaultEIP1559Config.InitialBaseFee + 125000000 := by decide

set_option maxHeartbeats 4000000 in
/-- C6: for the AIMD algorithm with its default configuration
(WindowSize 10, initial learning rate 0.1, gamma 0.25, alpha 0.01,
beta 0.9, delta 0), processing k ≤ 9 blocks at exactly the target block
size is a no-op beyond appending blocks (base fee and learning rate stay
at their initial values), and after the 10th such block the base fee is
still the initial 1,000,000,000 while the learning rate has decayed to
exactly 0.9 × 0.1 = 0.09 = 9/100. -/
theorem c6_aimd_noop_at_target :
    (∀ k, k ≤ 9 →
      (aimdRun DefaultAIMDConfig (List.replicate k 15000000)).baseFee = 1000000000 ∧
      (aimdRun DefaultAIMDConfig (List.replicate k 15000000)).learningRate = 1/10 ∧
      (aimdRun DefaultAIMDConfig (List.replicate k 15000000)).blocks.length = k) ∧
    (aimdRun DefaultAIMDConfig (List.replicate 10 15000000)).baseFee = 1000000000 ∧
    (aimdRun DefaultAIMDConfig (List.replicate 10 15000000)).learningRate = 9/100 := by
  refine ⟨fun k hk => ?_, ?_, ?_⟩
  · interval_cases k <;>
      norm_num [aimdRun, aimdProcessBlock, aimdNew, aimdAdjustLearningRate, aimdAdjustBaseFee,
        DefaultAIMDConfig, CalculateTargetUtilization, SumBlockSizesInWindow, NetGasDelta,
        uint64OfFloat, List.replicate, List.foldl, abs, max_def, min_def]
  all_goals
    norm_num [aimdRun, aimdProcessBlock, aimdNew, aimdAdjustLearningRate, aimdAdjustBaseFee,
      DefaultAIMDConfig, CalculateTargetUtilization, SumBlockSizesInWindow, NetGasDelta,
      uint64OfFloat, List.replicate, List.foldl, abs, max_def, min_def]

/-- Witness for C6: the bounded quantifier instantiated at k = 5. -/
theorem c6_aimd_noop_at_target_witness :
    (aimdRun DefaultAIMDConfig (List.replicate 5 15000000)).baseFee = 1000000000 :=
  (c6_aimd_noop_at_target.1 5 (by decide)).1

/-- C3 counterexample: with the default EIP-1559 configuration
(target 15,000,000, initial base fee 1,000,000,000), a single block with
gasUsed 45,000,000 (three times the target, above the 30,000,000 maximum
block size) moves the base fee by 250,000,000 — 25% of the pre-block base
fee, violating the claimed universal 12.5% bound (8 × 250,000,000 >
1,000,000,000). -/
theorem c3_counterexample :
    (eipRun DefaultEIP1559Config [45000000]).baseFee = 1250000000 ∧
    ¬ (8 * (1250000000 - 1000000000 : Nat) ≤ DefaultEIP1559Config.InitialBaseFee) := by
  decide

/-- C4 counterexample: with the default tactical configuration
(EmergencyThreshold 1.5), the utilization sequence 1.6, 1.0, 1.6 (gas
24,000,000 / 15,000,000 / 24,000,000) enters emergency mode on the third
block even though the second block's utilization 1.0 is not above the
threshold: the middle-band block does not reset `consecutiveHighUtil`, so
entry does not require 2 CONSECUTIVE above-threshold blocks. -/
theorem c4_counterexample :
    (fastRun DefaultSequencerFastPIDConfig [24000000, 15000000]).emergencyMode = false ∧
    (fastRun DefaultSequencerFastPIDConfig [24000000, 15000000, 24000000]).emergencyMode = true ∧
    ¬ ((15000000 : ℚ) / (DefaultSequencerFastPIDConfig.TargetBlockSize : ℚ) >
        DefaultSequencerFastPIDConfig.EmergencyThreshold) := by
  refine ⟨?_, ?_, ?_⟩ <;>
    norm_num [fastRun, fastProcessBlock, fastNew, fastCheckParameterUpdates,
      fastApplyParameterUpdate, updateEmergencyMode, updateResponsiveness, fastUpdatePIDState,
      fastCalculateDerivative, adjustBaseFeeFastPID, DefaultSequencerFastPIDConfig,
      ClampFloat64, uint64OfFloat, List.foldl, List.getD, abs, max_def, min_def]

/-- C7 counterexample: with the default PID configuration, after the run
30,000,000, 30,000,000, 15,000,001 the learning-rate-equivalent reported
by `GetCurrentState` is exactly 1,800,000 — far outside every configured
parameter of the PID configuration (the largest being MaxIntegral = 1000;
the output bound MaxFeeChange is 0.25): the PID adjuster has no configured
learning-rate bounds that contain the reported value. -/
theorem c7_counterexample :
    (pidGetCurrentState DefaultPIDConfig
      (pidRun DefaultPIDConfig [30000000, 30000000, 15000001])).LearningRate = 1800000 ∧
    DefaultPIDConfig.MaxFeeChange = 1/4 ∧ DefaultPIDConfig.MaxIntegral = 1000 ∧
    ((1800000 : ℚ) > 1000 ∧ (1800000 : ℚ) > 1/4) := by
  refine ⟨?_, by norm_num [DefaultPIDConfig], by norm_num [DefaultPIDConfig], by norm_num⟩
  norm_num [pidGetCurrentState, pidRun, pidProcessBlock, pidNew, pidUpdatePIDState,
    pidCalculateDerivative, adjustBaseFeePID, DefaultPIDConfig, CalculateTargetUtilization,
    CalculateBurstUtilization, SumBlockSizesInWindow, pidGetMaxBlockSize, CalculateMaxBlockSize,
    ClampFloat64, uint64OfFloat, List.foldl, List.getD, abs, max_def, min_def]

/-- C2 counterexample: sending 20 distinguishable updates in succession
through the strategic layer's `sendParameterUpdate` leaves exactly the
FIRST 10 updates pending — the channel-full path drops the NEW update
(it does not evict the oldest), so the most recently sent update
(`mkUpdate 20`) is not among the pending updates and can never be observed
by the tactical reader, even though it was recorded as the current
`sequencerParams`. -/
theorem c2_counterexample :
    ((List.range 20).foldl (fun s i => slowSendParameterUpdate s (mkUpdate (i + 1)))
        (slowNew DefaultBatcherSlowPIDConfig)).parameterUpdates =
      (List.range 10).map (fun i => mkUpdate (i + 1)) ∧
    mkUpdate 20 ∉
      ((List.range 20).foldl (fun s i => slowSendParameterUpdate s (mkUpdate (i + 1)))
        (slowNew DefaultBatcherSlowPIDConfig)).parameterUpdates ∧
    ((List.range 20).foldl (fun s i => slowSendParameterUpdate s (mkUpdate (i + 1)))
        (slowNew DefaultBatcherSlowPIDConfig)).sequencerParams = mkUpdate 20 := by decide

set_option maxHeartbeats 4000000 in
/-- C8: divergence run for the Reset defect. Process one block
(gas 15,000,000) through the default hierarchical controller with its
strategic update and coordination both firing, `Reset()`, and replay the
identical one-block sequence; compare with a fresh instance processing the
same sequence. The fresh replay rate-limits the strategic update against
the initial baseline (Kp 0.8 → 0.64, Ki 0.15 → 0.18), while the
reset replay rate-limits against the stale, un-reset `sequencerParams`
baseline (Kp 0.64 → 0.6, Ki 0.18 → 0.2), so the states reported by
`GetCurrentState` differ (learning rate 17/60 versus 29/100): replay after
`Reset()` is NOT bit-identical to a fresh instance. -/
theorem c8_reset_replay_divergence :
    (hierGetCurrentState DefaultHierarchicalPIDConfig
      (hierProcessBlock DefaultHierarchicalPIDConfig
        (hierReset DefaultHierarchicalPIDConfig
          (hierRun DefaultHierarchicalPIDConfig [(15000000, true, true)]))
        15000000 true true)).LearningRate = 17/60 ∧
    (hierGetCurrentState DefaultHierarchicalPIDConfig
      (hierProcessBlock DefaultHierarchicalPIDConfig
        (hierNew DefaultHierarchicalPIDConfig) 15000000 true true)).LearningRate = 29/100 ∧
    (hierGetCurrentState DefaultHierarchicalPIDConfig
      (hierProcessBlock DefaultHierarchicalPIDConfig
        (hierReset DefaultHierarchicalPIDConfig
          (hierRun DefaultHierarchicalPIDConfig [(15000000, true, true)]))
        15000000 true true)) ≠
    (hierGetCurrentState DefaultHierarchicalPIDConfig
      (hierProcessBlock DefaultHierarchicalPIDConfig
        (hierNew DefaultHierarchicalPIDConfig) 15000000 true true)) := by
  have h1 : (hierGetCurrentState DefaultHierarchicalPIDConfig
      (hierProcessBlock DefaultHierarchicalPIDConfig
        (hierReset DefaultHierarchicalPIDConfig
          (hierRun DefaultHierarchicalPIDConfig [(15000000, true, true)]))
        15000000 true true)).LearningRate = 17/60 := by
    norm_num [hierGetCurrentState, hierProcessBlock, hierNew, hierReset, hierRun,
      hierSlowConfig, hierFastConfig, coordinateLayers, fastSendParameterUpdate,
      slowProcessBlock, slowNew, slowReset, simulateDAMetrics, updateBaseFeeEIP1559,
      updateStrategicParameters, calculateCurrentDAUtilization, slowUpdatePIDState,
      slowCalculateDerivative, calculateStrategicOutput, calculateSequencerParameters,
      clampParameterChange, slowSendParameterUpdate, initialSequencerParams,
      fastProcessBlock, fastNew, fastReset, fastCheckParameterUpdates,
      fastApplyParameterUpdate, updateEmergencyMode, updateResponsiveness,
      fastUpdatePIDState, fastCalculateDerivative, adjustBaseFeeFastPID,
      fastGetCurrentState, calculateEffectiveLearningRate, fastGetMaxBlockSize,
      CalculateMaxBlockSize, CalculateTargetUtilization, CalculateBurstUtilization,
      SumBlockSizesInWindow, DefaultHierarchicalPIDConfig, DefaultBatcherSlowPIDConfig,
      DefaultSequencerFastPIDConfig, ClampFloat64, uint64OfFloat, List.foldl, List.getD,
      abs, max_def, min_def]
  have h2 : (hierGetCurrentState DefaultHierarchicalPIDConfig
      (hierProcessBlock DefaultHierarchicalPIDConfig
        (hierNew DefaultHierarchicalPIDConfig) 15000000 true true)).LearningRate = 29/100 := by
    norm_num [hierGetCurrentState, hierProcessBlock, hierNew, hierReset, hierRun,
      hierSlowConfig, hierFastConfig, coordinateLayers, fastSendParameterUpdate,
      slowProcessBlock, slowNew, slowReset, simulateDAMetrics, updateBaseFeeEIP1559,
      updateStrategicParameters, calculateCurrentDAUtilization, slowUpdatePIDState,
      slowCalculateDerivative, calculateStrategicOutput, calculateSequencerParameters,
      clampParameterChange, slowSendParameterUpdate, initialSequencerParams,
      fastProcessBlock, fastNew, fastReset, fastCheckParameterUpdates,
      fastApplyParameterUpdate, updateEmergencyMode, updateResponsiveness,
      fastUpdatePIDState, fastCalculateDerivative, adjustBaseFeeFastPID,
      fastGetCurrentState, calculateEffectiveLearningRate, fastGetMaxBlockSize,
      CalculateMaxBlockSize, CalculateTargetUtilization, CalculateBurstUtilization,
      SumBlockSizesInWindow, DefaultHierarchicalPIDConfig, DefaultBatcherSlowPIDConfig,
      DefaultSequencerFastPIDConfig, ClampFloat64, uint64OfFloat, List.foldl, List.getD,
      abs, max_def, min_def]
  refine ⟨h1, h2, fun hcontra => ?_⟩
  rw [hcontra, h2] at h1
  norm_num at h1

/-! ## C1: the minimum-base-fee invariant, for all six algorithms -/

/-- One AIMD `ProcessBlock` keeps the base fee at or above the minimum. -/
theorem aimdProcessBlock_minFee (cfg : AIMDConfig) (s : AIMDState) (g : Nat)
    (h : cfg.MinBaseFee ≤ s.baseFee) :
    cfg.MinBaseFee ≤ (aimdProcessBlock cfg s g).baseFee := by
  simp only [aimdProcessBlock, aimdAdjustBaseFee, aimdAdjustLearningRate]
  split
  · exact h
  · exact minFee_le_uint64OfFloat_clamp _ _

/-- The EIP-1559 fee update lands at or above the minimum. -/
theorem adjustBaseFeeEIP1559_minFee (cfg : EIP1559Config) (b g : Nat)
    (h : cfg.MinBaseFee ≤ b) : cfg.MinBaseFee ≤ adjustBaseFeeEIP1559 cfg b g := by
  simp only [adjustBaseFeeEIP1559]
  split
  · exact h
  · exact minFee_le_toNat_clamp _ _

/-- The PID fee update lands at or above the minimum, unconditionally. -/
theorem adjustBaseFeePID_minFee (cfg : PIDConfig) (s : PIDState) (e : ℚ) :
    cfg.MinBaseFee ≤ (adjustBaseFeePID cfg s e).baseFee := by
  simp only [adjustBaseFeePID]
  exact minFee_le_uint64OfFloat_clamp _ _

/-- The tactical fee update lands at or above the minimum, unconditionally
(for arbitrary dynamic gains, throttling and emergency state). -/
theorem adjustBaseFeeFastPID_minFee (cfg : SequencerFastPIDConfig) (s : FastPIDState)
    (e u : ℚ) : cfg.MinBaseFee ≤ (adjustBaseFeeFastPID cfg s e u).baseFee := by
  simp only [adjustBaseFeeFastPID]
  exact minFee_le_uint64OfFloat_clamp _ _

/-- One tactical `ProcessBlock` keeps the base fee at or above the
minimum, from any state. -/
theorem fastProcessBlock_minFee (cfg : SequencerFastPIDConfig) (s : FastPIDState) (g : Nat) :
    cfg.MinBaseFee ≤ (fastProcessBlock cfg s g).baseFee := by
  simp only [fastProcessBlock]
  exact adjustBaseFeeFastPID_minFee _ _ _ _

/-- The strategic-parameter update never touches the base fee. -/
theorem updateStrategicParameters_baseFee (cfg : BatcherSlowPIDConfig) (s : SlowPIDState) :
    (updateStrategicParameters cfg s).baseFee = s.baseFee := by
  simp only [updateStrategicParameters, slowSendParameterUpdate]
  split
  · rfl
  · split <;> rfl

/-- One strategic `ProcessBlock` keeps the base fee at or above the minimum. -/
theorem slowProcessBlock_minFee (cfg : BatcherSlowPIDConfig) (s : SlowPIDState)
    (g : Nat) (b : Bool) (h : cfg.MinBaseFee ≤ s.baseFee) :
    cfg.MinBaseFee ≤ (slowProcessBlock cfg s g b).baseFee := by
  have hbase : ∀ b' : Nat, cfg.MinBaseFee ≤ b' → cfg.MinBaseFee ≤ updateBaseFeeEIP1559 cfg b' g := by
    intro b' hb'
    simp only [updateBaseFeeEIP1559]
    split
    · exact hb'
    · exact minFee_le_toNat_clamp _ _
  simp only [slowProcessBlock]
  split
  · rw [updateStrategicParameters_baseFee]
    exact hbase _ h
  · exact hbase _ h

/-- One hierarchical `ProcessBlock` keeps the (authoritative, fast-layer)
base fee at or above the minimum, from any state. -/
theorem hierProcessBlock_minFee (cfg : HierarchicalPIDConfig) (s : HierState)
    (g : Nat) (b1 b2 : Bool) :
    cfg.MinBaseFee ≤ (hierProcessBlock cfg s g b1 b2).fastLayer.baseFee := by
  simp only [hierProcessBlock]
  exact fastProcessBlock_minFee (hierFastConfig cfg) _ _

/-- C1: for every algorithm constructible via the factory (AIMD, EIP-1559,
PID, batcher-slow-pid, sequencer-fast-pid, hierarchical-pid), every
configuration with `InitialBaseFee ≥ MinBaseFee`, and every finite input
sequence (gas values, plus the wall-clock oracles for the hierarchical
layers), the base fee reported by `GetCurrentState` is at or above the
configured minimum base fee after every `ProcessBlock` call (stated for
every input list, hence for every prefix of every sequence). -/
theorem c1_base_fee_never_below_minimum :
    (∀ (cfg : AIMDConfig) (inputs : List Nat), cfg.MinBaseFee ≤ cfg.InitialBaseFee →
      cfg.MinBaseFee ≤ (aimdGetCurrentState cfg (aimdRun cfg inputs)).BaseFee) ∧
    (∀ (cfg : EIP1559Config) (inputs : List Nat), cfg.MinBaseFee ≤ cfg.InitialBaseFee →
      cfg.MinBaseFee ≤ (eipGetCurrentState cfg (eipRun cfg inputs)).BaseFee) ∧
    (∀ (cfg : PIDConfig) (inputs : List Nat), cfg.MinBaseFee ≤ cfg.InitialBaseFee →
      cfg.MinBaseFee ≤ (pidGetCurrentState cfg (pidRun cfg inputs)).BaseFee) ∧
    (∀ (cfg : BatcherSlowPIDConfig) (inputs : List (Nat × Bool)),
      cfg.MinBaseFee ≤ cfg.InitialBaseFee →
      cfg.MinBaseFee ≤ (slowGetCurrentState cfg (slowRun cfg inputs)).BaseFee) ∧
    (∀ (cfg : SequencerFastPIDConfig) (inputs : List Nat),
      cfg.MinBaseFee ≤ cfg.InitialBaseFee →
      cfg.MinBaseFee ≤ (fastGetCurrentState cfg (fastRun cfg inputs)).BaseFee) ∧
    (∀ (cfg : HierarchicalPIDConfig) (inputs : List (Nat × Bool × Bool)),
      cfg.MinBaseFee ≤ cfg.InitialBaseFee →
      cfg.MinBaseFee ≤ (hierGetCurrentState cfg (hierRun cfg inputs)).BaseFee) := by
  refine ⟨?_, ?_, ?_, ?_, ?_, ?_⟩
  · intro cfg inputs h
    exact foldlPreserve (fun s a hs => aimdProcessBlock_minFee cfg s a hs) inputs _ h
  · intro cfg inputs h
    exact foldlPreserve (P := fun s : EIP1559State => cfg.MinBaseFee ≤ s.baseFee)
      (fun s a hs => adjustBaseFeeEIP1559_minFee cfg s.baseFee a hs) inputs _ h
  · intro cfg inputs h
    exact foldlPreserve (P := fun s : PIDState => cfg.MinBaseFee ≤ s.baseFee)
      (fun s a _ => adjustBaseFeePID_minFee cfg _ _) inputs _ h
  · intro cfg inputs h
    exact foldlPreserve (P := fun s : SlowPIDState => cfg.MinBaseFee ≤ s.baseFee)
      (fun s a hs => slowProcessBlock_minFee cfg s a.1 a.2 hs) inputs _ h
  · intro cfg inputs h
    exact foldlPreserve (P := fun s : FastPIDState => cfg.MinBaseFee ≤ s.baseFee)
      (fun s a _ => fastProcessBlock_minFee cfg s a) inputs _ h
  · intro cfg inputs h
    exact foldlPreserve (P := fun s : HierState => cfg.MinBaseFee ≤ s.fastLayer.baseFee)
      (fun s a _ => hierProcessBlock_minFee cfg s a.1 a.2.1 a.2.2) inputs _ h

/-- Witness for C1: each of the six algorithms at its default
configuration, processing one 30,000,000-gas block. -/
theorem c1_base_fee_never_below_minimum_witness :
    DefaultAIMDConfig.MinBaseFee ≤
      (aimdGetCurrentState DefaultAIMDConfig (aimdRun DefaultAIMDConfig [30000000])).BaseFee ∧
    DefaultEIP1559Config.MinBaseFee ≤
      (eipGetCurrentState DefaultEIP1559Config (eipRun DefaultEIP1559Config [30000000])).BaseFee ∧
    DefaultPIDConfig.MinBaseFee ≤
      (pidGetCurrentState DefaultPIDConfig (pidRun DefaultPIDConfig [30000000])).BaseFee ∧
    DefaultBatcherSlowPIDConfig.MinBaseFee ≤
      (slowGetCurrentState DefaultBatcherSlowPIDConfig
        (slowRun DefaultBatcherSlowPIDConfig [(30000000, true)])).BaseFee ∧
    DefaultSequencerFastPIDConfig.MinBaseFee ≤
      (fastGetCurrentState DefaultSequencerFastPIDConfig
        (fastRun DefaultSequencerFastPIDConfig [30000000])).BaseFee ∧
    DefaultHierarchicalPIDConfig.MinBaseFee ≤
      (hierGetCurrentState DefaultHierarchicalPIDConfig
        (hierRun DefaultHierarchicalPIDConfig [(30000000, true, true)])).BaseFee :=
  ⟨c1_base_fee_never_below_minimum.1 DefaultAIMDConfig [30000000] (by decide),
   c1_base_fee_never_below_minimum.2.1 DefaultEIP1559Config [30000000] (by decide),
   c1_base_fee_never_below_minimum.2.2.1 DefaultPIDConfig [30000000] (by decide),
   c1_base_fee_never_below_minimum.2.2.2.1 DefaultBatcherSlowPIDConfig [(30000000, true)]
     (by decide),
   c1_base_fee_never_below_minimum.2.2.2.2.1 DefaultSequencerFastPIDConfig [30000000]
     (by decide),
   c1_base_fee_never_below_minimum.2.2.2.2.2 DefaultHierarchicalPIDConfig
     [(30000000, true, true)] (by decide)⟩

/-! ## C2 (amended), C10: the two channel-send disciplines -/

/-- C2 (amended): the strategic layer's send is non-blocking and always
records the update as the current `sequencerParams`, but on a full
capacity-10 channel it drops the NEW update (the pending queue is left
unchanged — the oldest updates are kept, not evicted); below capacity the
update is enqueued at the back. -/
theorem c2_slow_send_drops_newest (s : SlowPIDState) (u : SequencerParamUpdate)
    (h : s.parameterUpdates.length ≤ 10) :
    (slowSendParameterUpdate s u).parameterUpdates.length ≤ 10 ∧
    (slowSendParameterUpdate s u).sequencerParams = u ∧
    (s.parameterUpdates.length = 10 →
      (slowSendParameterUpdate s u).parameterUpdates = s.parameterUpdates) ∧
    (s.parameterUpdates.length < 10 →
      (slowSendParameterUpdate s u).parameterUpdates = s.parameterUpdates ++ [u]) := by
  simp only [slowSendParameterUpdate]
  by_cases hlt : s.parameterUpdates.length < 10
  · rw [if_pos hlt]
    refine ⟨?_, rfl, ?_, fun _ => rfl⟩
    · simp only [List.length_append, List.length_cons, List.length_nil]
      omega
    · intro h10; omega
  · rw [if_neg hlt]
    exact ⟨h, rfl, fun _ => rfl, fun hc => absurd hc hlt⟩

/-- Witness for C2 (amended): sending into an empty queue. -/
theorem c2_slow_send_drops_newest_witness :
    (slowSendParameterUpdate (slowNew DefaultBatcherSlowPIDConfig)
      (mkUpdate 1)).parameterUpdates.length ≤ 10 :=
  (c2_slow_send_drops_newest (slowNew DefaultBatcherSlowPIDConfig) (mkUpdate 1)
    (by decide)).1

/-- C10: the tactical layer's inbound `SendParameterUpdate` is non-blocking
in single-threaded use: when the capacity-10 queue is full it dequeues the
oldest pending update and enqueues the new one, so the queue always holds
at most 10 updates afterwards and the just-sent update is always pending
(it is the newest, at the back of the queue). -/
theorem c10_fast_send_drops_oldest (q : List SequencerParamUpdate)
    (u : SequencerParamUpdate) (h : q.length ≤ 10) :
    (fastSendParameterUpdate q u).length ≤ 10 ∧
    u ∈ fastSendParameterUpdate q u ∧
    (fastSendParameterUpdate q u).getLast? = some u ∧
    (q.length = 10 → fastSendParameterUpdate q u = q.drop 1 ++ [u]) := by
  simp only [fastSendParameterUpdate]
  by_cases hlt : q.length < 10
  · rw [if_pos hlt]
    refine ⟨?_, ?_, ?_, fun hc => by omega⟩
    · simp only [List.length_append, List.length_cons, List.length_nil]; omega
    · exact List.mem_append_right _ (List.mem_singleton.mpr rfl)
    · exact List.getLast?_concat _
  · rw [if_neg hlt]
    refine ⟨?_, ?_, ?_, fun _ => rfl⟩
    · simp only [List.length_append, List.length_cons, List.length_nil, List.length_drop]
      omega
    · exact List.mem_append_right _ (List.mem_singleton.mpr rfl)
    · exact List.getLast?_concat _

/-- Witness for C10: sending into a full 10-element queue. -/
theorem c10_fast_send_drops_oldest_witness :
    mkUpdate 11 ∈ fastSendParameterUpdate ((List.range 10).map mkUpdate) (mkUpdate 11) :=
  (c10_fast_send_drops_oldest ((List.range 10).map mkUpdate) (mkUpdate 11) (by decide)).2.1

/-! ## C3 (amended): the EIP-1559 single-block move bound -/

/-- The magnitude of the truncated EIP-1559 fee change is bounded by the
pre-block fee when the gas deviation is at most one target. -/
theorem eip1559_change_natAbs_le (b t : Nat) (d : Int) (ht : 0 < t)
    (hd : d.natAbs ≤ t) :
    8 * (Int.tdiv (Int.tdiv ((b : Int) * d) (t : Int)) 8).natAbs ≤ b := by
  have h1 : (Int.tdiv ((b : Int) * d) (t : Int)).natAbs = b * d.natAbs / t := by
    rw [Int.natAbs_tdiv, Int.natAbs_mul]
    simp only [Int.natAbs_ofNat]
    rfl
  have h2 : (Int.tdiv (Int.tdiv ((b : Int) * d) (t : Int)) 8).natAbs =
      (Int.tdiv ((b : Int) * d) (t : Int)).natAbs / 8 := by
    rw [Int.natAbs_tdiv]
    rfl
  rw [h2, h1]
  have h3 : b * d.natAbs / t ≤ b := by
    calc b * d.natAbs / t ≤ b * t / t := by
          exact Nat.div_le_div_right (Nat.mul_le_mul_left b hd)
      _ = b := Nat.mul_div_cancel b ht
  omega

/-- C3 (amended): for the EIP-1559 algorithm, the single-block base-fee
change has magnitude at most 12.5% of the pre-block base fee (8 × |change|
≤ pre-block fee) PROVIDED gasUsed is at most twice the target block size —
the range real EIP-1559 block validity guarantees. The bound does NOT hold
for arbitrary non-negative gasUsed: gas above 2 × target produces
proportionally larger moves (see the counterexample). -/
theorem c3_eip1559_change_bounded_up_to_double_target (cfg : EIP1559Config)
    (baseFee gasUsed : Nat) (ht : 0 < cfg.TargetBlockSize)
    (hmin : cfg.MinBaseFee ≤ baseFee) (hgas : gasUsed ≤ 2 * cfg.TargetBlockSize) :
    8 * ((adjustBaseFeeEIP1559 cfg baseFee gasUsed : Int) - (baseFee : Int)).natAbs ≤
      baseFee := by
  simp only [adjustBaseFeeEIP1559]
  by_cases heq : gasUsed = cfg.TargetBlockSize
  · rw [if_pos heq]
    simp
  · rw [if_neg heq]
    have hd : ((gasUsed : Int) - (cfg.TargetBlockSize : Int)).natAbs ≤ cfg.TargetBlockSize := by
      omega
    have hb := eip1559_change_natAbs_le baseFee cfg.TargetBlockSize
      ((gasUsed : Int) - (cfg.TargetBlockSize : Int)) ht hd
    omega

/-- Witness for C3 (amended): the default configuration at a double-target
block. -/
theorem c3_eip1559_change_bounded_witness :
    8 * ((adjustBaseFeeEIP1559 DefaultEIP1559Config 1000000000 30000000 : Int) -
      (1000000000 : Int)).natAbs ≤ 1000000000 :=
  c3_eip1559_change_bounded_up_to_double_target DefaultEIP1559Config 1000000000 30000000
    (by decide) (by decide) (by decide)

/-! ## C4 (amended): emergency-mode hysteresis -/

/-- Receiving a parameter update never touches the emergency fields. -/
theorem checkParameterUpdates_em (s : FastPIDState) :
    (fastCheckParameterUpdates s).emergencyMode = s.emergencyMode ∧
    (fastCheckParameterUpdates s).consecutiveHighUtil = s.consecutiveHighUtil ∧
    (fastCheckParameterUpdates s).consecutiveLowUtil = s.consecutiveLowUtil := by
  simp only [fastCheckParameterUpdates]
  cases s.parameterUpdates <;> exact ⟨rfl, rfl, rfl⟩

/-- The responsiveness update never touches the emergency fields. -/
theorem updateResponsiveness_em (cfg : SequencerFastPIDConfig) (s : FastPIDState) (u : ℚ) :
    (updateResponsiveness cfg s u).emergencyMode = s.emergencyMode ∧
    (updateResponsiveness cfg s u).consecutiveHighUtil = s.consecutiveHighUtil ∧
    (updateResponsiveness cfg s u).consecutiveLowUtil = s.consecutiveLowUtil := by
  simp only [updateResponsiveness]
  split
  · exact ⟨rfl, rfl, rfl⟩
  split
  · exact ⟨rfl, rfl, rfl⟩
  · exact ⟨rfl, rfl, rfl⟩

/-- Emergency-mode entry requires an above-threshold block and a prior
accumulated above-threshold count of at least 1. -/
theorem em_entry (cfg : SequencerFastPIDConfig) (s : FastPIDState) (u : ℚ)
    (h : (updateEmergencyMode cfg s u).emergencyMode = true) :
    s.emergencyMode = true ∨ (u > cfg.EmergencyThreshold ∧ 1 ≤ s.consecutiveHighUtil) := by
  simp only [updateEmergencyMode] at h
  split at h
  · split at h
    · rename_i hu hcnt
      right
      exact ⟨hu, by omega⟩
    · exact Or.inl h
  · split at h
    · split at h
      · simp_all
      · exact Or.inl h
    · exact Or.inl h

/-- Emergency-mode exit requires a below-0.8 block and a prior accumulated
below-0.8 count of at least 2. -/
theorem em_exit (cfg : SequencerFastPIDConfig) (s : FastPIDState) (u : ℚ)
    (h : (updateEmergencyMode cfg s u).emergencyMode = false) :
    s.emergencyMode = false ∨ (u < 4/5 ∧ 2 ≤ s.consecutiveLowUtil) := by
  simp only [updateEmergencyMode] at h
  split at h
  · split at h
    · simp_all
    · exact Or.inl h
  · split at h
    · split at h
      · rename_i hu hcnt
        right
        exact ⟨hu, by omega⟩
      · exact Or.inl h
    · exact Or.inl h

/-- A middle-band block (0.8 ≤ utilization ≤ threshold) leaves the
emergency state entirely unchanged. -/
theorem em_mid (cfg : SequencerFastPIDConfig) (s : FastPIDState) (u : ℚ)
    (h1 : ¬(u > cfg.EmergencyThreshold)) (h2 : ¬(u < 4/5)) :
    updateEmergencyMode cfg s u = s := by
  simp only [updateEmergencyMode]
  rw [if_neg h1, if_neg h2]

/-- Entry necessity lifted to the full `ProcessBlock` pipeline. -/
theorem fastProcessBlock_em_entry (cfg : SequencerFastPIDConfig) (s : FastPIDState) (g : Nat)
    (h : (fastProcessBlock cfg s g).emergencyMode = true) :
    s.emergencyMode = true ∨
    ((g : ℚ) / (cfg.TargetBlockSize : ℚ) > cfg.EmergencyThreshold ∧
      1 ≤ s.consecutiveHighUtil) := by
  have hc := checkParameterUpdates_em s
  simp only [fastProcessBlock, adjustBaseFeeFastPID, fastUpdatePIDState] at h
  rw [updateResponsiveness_em cfg _ _ |>.1] at h
  rcases em_entry _ _ _ h with h1 | h2
  · exact Or.inl (hc.1.symm.trans h1)
  · refine Or.inr ⟨h2.1, ?_⟩
    have h3 : 1 ≤ (fastCheckParameterUpdates s).consecutiveHighUtil := h2.2
    rw [hc.2.1] at h3
    exact h3

/-- Exit necessity lifted to the full `ProcessBlock` pipeline. -/
theorem fastProcessBlock_em_exit (cfg : SequencerFastPIDConfig) (s : FastPIDState) (g : Nat)
    (h : (fastProcessBlock cfg s g).emergencyMode = false) :
    s.emergencyMode = false ∨
    ((g : ℚ) / (cfg.TargetBlockSize : ℚ) < 4/5 ∧ 2 ≤ s.consecutiveLowUtil) := by
  have hc := checkParameterUpdates_em s
  simp only [fastProcessBlock, adjustBaseFeeFastPID, fastUpdatePIDState] at h
  rw [updateResponsiveness_em cfg _ _ |>.1] at h
  rcases em_exit _ _ _ h with h1 | h2
  · exact Or.inl (hc.1.symm.trans h1)
  · refine Or.inr ⟨h2.1, ?_⟩
    have h3 : 2 ≤ (fastCheckParameterUpdates s).consecutiveLowUtil := h2.2
    rw [hc.2.2] at h3
    exact h3

/-- Middle-band invariance lifted to the full `ProcessBlock` pipeline. -/
theorem fastProcessBlock_em_mid (cfg : SequencerFastPIDConfig) (s : FastPIDState) (g : Nat)
    (h1 : (4/5 : ℚ) ≤ (g : ℚ) / (cfg.TargetBlockSize : ℚ))
    (h2 : (g : ℚ) / (cfg.TargetBlockSize : ℚ) ≤ cfg.EmergencyThreshold) :
    (fastProcessBlock cfg s g).emergencyMode = s.emergencyMode ∧
    (fastProcessBlock cfg s g).consecutiveHighUtil = s.consecutiveHighUtil ∧
    (fastProcessBlock cfg s g).consecutiveLowUtil = s.consecutiveLowUtil := by
  have hc := checkParameterUpdates_em s
  have hr := updateResponsiveness_em cfg
  simp only [fastProcessBlock, adjustBaseFeeFastPID, fastUpdatePIDState]
  rw [hr _ _ |>.1, hr _ _ |>.2.1, hr _ _ |>.2.2,
    em_mid cfg _ _ (not_lt.mpr h2) (not_lt.mpr h1)]
  exact ⟨hc.1, hc.2.1, hc.2.2⟩

/-- C4 (amended): the emergency-mode hysteresis of the tactical layer.
The counters accumulate above-threshold (respectively below-0.8) blocks
since the last opposite excursion — a middle-band block
(0.8 ≤ utilization ≤ EmergencyThreshold) leaves both counters and the
mode entirely unchanged, so the qualifying blocks need NOT be consecutive
(the original claim's "2 consecutive blocks" fails; see the
counterexample). What holds: (1) the mode turns on only on an
above-threshold block with at least one other above-threshold block
accumulated since the last sub-0.8 block; (2) it turns off only on a
sub-0.8 block with at least two other sub-0.8 blocks accumulated since
the last above-threshold block; (3) middle-band blocks change nothing;
(4) a single isolated above-threshold block (accumulated count 0) never
switches the mode on; (5) a single isolated sub-0.8 block (accumulated
count ≤ 1) never switches the mode off. -/
theorem c4_emergency_mode_hysteresis_amended :
    (∀ (cfg : SequencerFastPIDConfig) (s : FastPIDState) (g : Nat),
      (fastProcessBlock cfg s g).emergencyMode = true →
      s.emergencyMode = true ∨
        ((g : ℚ) / (cfg.TargetBlockSize : ℚ) > cfg.EmergencyThreshold ∧
          1 ≤ s.consecutiveHighUtil)) ∧
    (∀ (cfg : SequencerFastPIDConfig) (s : FastPIDState) (g : Nat),
      (fastProcessBlock cfg s g).emergencyMode = false →
      s.emergencyMode = false ∨
        ((g : ℚ) / (cfg.TargetBlockSize : ℚ) < 4/5 ∧ 2 ≤ s.consecutiveLowUtil)) ∧
    (∀ (cfg : SequencerFastPIDConfig) (s : FastPIDState) (g : Nat),
      (4/5 : ℚ) ≤ (g : ℚ) / (cfg.TargetBlockSize : ℚ) →
      (g : ℚ) / (cfg.TargetBlockSize : ℚ) ≤ cfg.EmergencyThreshold →
      (fastProcessBlock cfg s g).emergencyMode = s.emergencyMode ∧
      (fastProcessBlock cfg s g).consecutiveHighUtil = s.consecutiveHighUtil ∧
      (fastProcessBlock cfg s g).consecutiveLowUtil = s.consecutiveLowUtil) ∧
    (∀ (cfg : SequencerFastPIDConfig) (s : FastPIDState) (g : Nat),
      s.consecutiveHighUtil = 0 → s.emergencyMode = false →
      (fastProcessBlock cfg s g).emergencyMode = false) ∧
    (∀ (cfg : SequencerFastPIDConfig) (s : FastPIDState) (g : Nat),
      s.consecutiveLowUtil ≤ 1 → s.emergencyMode = true →
      (fastProcessBlock cfg s g).emergencyMode = true) := by
  refine ⟨fastProcessBlock_em_entry, fastProcessBlock_em_exit, fastProcessBlock_em_mid,
    ?_, ?_⟩
  · intro cfg s g h0 hm
    cases hb : (fastProcessBlock cfg s g).emergencyMode
    · rfl
    · rcases fastProcessBlock_em_entry cfg s g hb with h1 | h2
      · exact (Bool.false_ne_true (hm.symm.trans h1)).elim
      · omega
  · intro cfg s g h0 hm
    cases hb : (fastProcessBlock cfg s g).emergencyMode
    · rcases fastProcessBlock_em_exit cfg s g hb with h1 | h2
      · exact (Bool.false_ne_true (h1.symm.trans hm)).elim
      · omega
    · rfl

/-- Witness for C4 (amended): a middle-band block (utilization exactly 1)
on a fresh default tactical controller leaves emergency mode off. -/
theorem c4_emergency_mode_hysteresis_amended_witness :
    (fastProcessBlock DefaultSequencerFastPIDConfig
      (fastNew DefaultSequencerFastPIDConfig) 15000000).emergencyMode =
      (fastNew DefaultSequencerFastPIDConfig).emergencyMode :=
  (c4_emergency_mode_hysteresis_amended.2.2.1 DefaultSequencerFastPIDConfig
    (fastNew DefaultSequencerFastPIDConfig) 15000000
    (by norm_num [DefaultSequencerFastPIDConfig])
    (by norm_num [DefaultSequencerFastPIDConfig])).1

/-! ## C7 (amended): AIMD learning-rate bounds -/

/-- One AIMD `ProcessBlock` keeps the learning rate inside its configured
bounds, for any valid configuration. -/
theorem aimdProcessBlock_lr (cfg : AIMDConfig) (s : AIMDState) (g : Nat)
    (h1 : 0 ≤ cfg.MinLearningRate) (h2 : cfg.MinLearningRate ≤ cfg.MaxLearningRate)
    (h3 : 0 ≤ cfg.Alpha) (h4 : 0 ≤ cfg.Beta) (h5 : cfg.Beta ≤ 1)
    (h : cfg.MinLearningRate ≤ s.learningRate ∧ s.learningRate ≤ cfg.MaxLearningRate) :
    cfg.MinLearningRate ≤ (aimdProcessBlock cfg s g).learningRate ∧
      (aimdProcessBlock cfg s g).learningRate ≤ cfg.MaxLearningRate := by
  have hlr0 : 0 ≤ s.learningRate := le_trans h1 h.1
  have hbeta : cfg.Beta * s.learningRate ≤ s.learningRate := by nlinarith
  simp only [aimdProcessBlock, aimdAdjustBaseFee, aimdAdjustLearningRate]
  split
  · exact h
  · split
    · constructor
      · exact le_min h2 (by linarith [h.1])
      · exact min_le_left _ _
    · constructor
      · exact le_max_left _ _
      · exact max_le h2 (le_trans hbeta h.2)

/-- C7 (amended): for the AIMD algorithm, under the caller-validated
configuration constraints (0 ≤ MinLearningRate ≤ MaxLearningRate,
0 ≤ Alpha, 0 ≤ Beta ≤ 1, initial learning rate inside [min, max]), the
learning rate reported by `GetCurrentState` stays inside the configured
[MinLearningRate, MaxLearningRate] after every `ProcessBlock` call — both
during and after the warm-up period. (The PID algorithm has NO configured
learning-rate bounds: its reported learning-rate-equivalent is the ratio
|relative fee change| / |excess utilization| and is not contained by any
configured parameter — see the counterexample.) -/
theorem c7_aimd_learning_rate_in_bounds (cfg : AIMDConfig) (inputs : List Nat)
    (h1 : 0 ≤ cfg.MinLearningRate) (h2 : cfg.MinLearningRate ≤ cfg.MaxLearningRate)
    (h3 : 0 ≤ cfg.Alpha) (h4 : 0 ≤ cfg.Beta) (h5 : cfg.Beta ≤ 1)
    (h6 : cfg.MinLearningRate ≤ cfg.InitialLearningRate)
    (h7 : cfg.InitialLearningRate ≤ cfg.MaxLearningRate) :
    cfg.MinLearningRate ≤ (aimdGetCurrentState cfg (aimdRun cfg inputs)).LearningRate ∧
    (aimdGetCurrentState cfg (aimdRun cfg inputs)).LearningRate ≤ cfg.MaxLearningRate :=
  foldlPreserve
    (P := fun s : AIMDState =>
      cfg.MinLearningRate ≤ s.learningRate ∧ s.learningRate ≤ cfg.MaxLearningRate)
    (fun s a hs => aimdProcessBlock_lr cfg s a h1 h2 h3 h4 h5 hs) inputs _ ⟨h6, h7⟩

/-- Witness for C7 (amended): the default AIMD configuration processing
one over-target block. -/
theorem c7_aimd_learning_rate_in_bounds_witness :
    DefaultAIMDConfig.MinLearningRate ≤
      (aimdGetCurrentState DefaultAIMDConfig
        (aimdRun DefaultAIMDConfig [30000000])).LearningRate ∧
    (aimdGetCurrentState DefaultAIMDConfig
      (aimdRun DefaultAIMDConfig [30000000])).LearningRate ≤
      DefaultAIMDConfig.MaxLearningRate :=
  c7_aimd_learning_rate_in_bounds DefaultAIMDConfig [30000000]
    (by norm_num [DefaultAIMDConfig]) (by norm_num [DefaultAIMDConfig])
    (by norm_num [DefaultAIMDConfig]) (by norm_num [DefaultAIMDConfig])
    (by norm_num [DefaultAIMDConfig]) (by norm_num [DefaultAIMDConfig])
    (by norm_num [DefaultAIMDConfig])

/-! ## C9: throttling never amplifies a fee decrease -/

/-- The clamp is monotone when moving both the value and the lower bound
up, for non-positive values and non-negative upper bounds. -/
theorem clampFloat_le_clampFloat {a b lo lo' hi hi' : ℚ} (hab : a ≤ b) (hlo : lo ≤ lo')
    (hb : b ≤ 0) (hlo' : lo' ≤ 0) (hhi : 0 ≤ hi) (hhi' : 0 ≤ hi') :
    ClampFloat64 a lo hi ≤ ClampFloat64 b lo' hi' := by
  simp only [ClampFloat64]
  repeat' split
  all_goals linarith

/-- The clamp of a non-negative value between a non-positive lower and a
non-negative upper bound is non-negative. -/
theorem clampFloat_nonneg {a lo hi : ℚ} (ha : 0 ≤ a) (hlo : lo ≤ 0) (hhi : 0 ≤ hi) :
    0 ≤ ClampFloat64 a lo hi := by
  simp only [ClampFloat64]
  repeat' split
  all_goals linarith

/-- A larger clamped control output produces a smaller fee decrease. -/
theorem fee_decrease_mono (b minFee : Nat) (x y : ℚ) (hxy : x ≤ y) :
    b - uint64OfFloat (if (b:ℚ) * (1+y) < (minFee:ℚ) then (minFee:ℚ) else (b:ℚ)*(1+y)) ≤
    b - uint64OfFloat (if (b:ℚ) * (1+x) < (minFee:ℚ) then (minFee:ℚ) else (b:ℚ)*(1+x)) := by
  apply Nat.sub_le_sub_left
  apply uint64OfFloat_mono
  have hb0 : (0:ℚ) ≤ (b:ℚ) := Nat.cast_nonneg b
  have hmul : (b:ℚ)*(1+x) ≤ (b:ℚ)*(1+y) := by nlinarith
  split <;> split <;> linarith

/-- A non-negative control output never decreases the fee. -/
theorem fee_no_decrease (b minFee : Nat) (x : ℚ) (hx : 0 ≤ x) :
    b - uint64OfFloat (if (b:ℚ)*(1+x) < (minFee:ℚ) then (minFee:ℚ) else (b:ℚ)*(1+x)) = 0 := by
  apply Nat.sub_eq_zero_of_le
  apply le_uint64OfFloat
  have hb0 : (0:ℚ) ≤ (b:ℚ) := Nat.cast_nonneg b
  have hble : (b:ℚ) ≤ (b:ℚ)*(1+x) := by nlinarith
  split <;> linarith

/-- The core throttling comparison, over an arbitrary raw control output
`c0` and effective max-change `m1`: the decrease with the throttled output
and shrunk bound is at most the decrease with the plain output and bound. -/
theorem throttleDecreaseLe (b minFee : Nat) (c0 m1 τ : ℚ)
    (h0 : 0 ≤ τ) (h1 : τ ≤ 1) (hm : 0 ≤ m1) :
    b - uint64OfFloat
      (if (b:ℚ) * (1 + ClampFloat64 (if c0 < 0 then c0 * (1 - τ * (3/10)) else c0)
          (-(m1 * (1 - τ * (1/2)))) (m1 * (1 - τ * (1/2)))) < (minFee:ℚ) then (minFee:ℚ)
        else (b:ℚ) * (1 + ClampFloat64 (if c0 < 0 then c0 * (1 - τ * (3/10)) else c0)
          (-(m1 * (1 - τ * (1/2)))) (m1 * (1 - τ * (1/2))))) ≤
    b - uint64OfFloat
      (if (b:ℚ) * (1 + ClampFloat64 c0 (-m1) m1) < (minFee:ℚ) then (minFee:ℚ)
        else (b:ℚ) * (1 + ClampFloat64 c0 (-m1) m1)) := by
  have hm2 : 0 ≤ m1 * (1 - τ * (1/2)) := by nlinarith
  by_cases hc : c0 < 0
  · rw [if_pos hc]
    apply fee_decrease_mono
    apply clampFloat_le_clampFloat _ _ _ _ hm hm2
    · nlinarith
    · nlinarith
    · nlinarith
    · linarith
  · rw [if_neg hc]
    push_neg at hc
    rw [fee_no_decrease b minFee _ (clampFloat_nonneg hc (by linarith) hm),
      fee_no_decrease b minFee _ (clampFloat_nonneg hc (by linarith) hm2)]

/-- The derivative depends only on the error history. -/
theorem fastCalculateDerivative_congr (s s' : FastPIDState)
    (h : s.errorHistory = s'.errorHistory) :
    fastCalculateDerivative s = fastCalculateDerivative s' := by
  simp only [fastCalculateDerivative, h]

/-- C9: for the tactical layer's per-block fee adjustment, for every fixed
PID state (gains, integral, error history, boost, emergency mode, fee),
every error and utilization, and every throttling intensity τ ∈ [0, 1]
(with non-negative configured max-change bounds): the base-fee decrease
produced with throttling active is never larger than the decrease produced
from the identical state with throttling inactive — throttling shrinks the
allowed max-change and scales negative control outputs toward zero, never
amplifying a fee decrease. -/
theorem c9_throttling_never_amplifies_decrease (cfg : SequencerFastPIDConfig)
    (s : FastPIDState) (error utilization τ : ℚ) (h0 : 0 ≤ τ) (h1 : τ ≤ 1)
    (hmc : 0 ≤ s.currentMaxFeeChange) (hec : 0 ≤ cfg.EmergencyMaxChange) :
    s.baseFee - (adjustBaseFeeFastPID cfg
        { s with throttlingActive := true, throttlingIntensity := τ }
        error utilization).baseFee ≤
    s.baseFee - (adjustBaseFeeFastPID cfg
        { s with throttlingActive := false } error utilization).baseFee := by
  have hm1 : 0 ≤ (if s.emergencyMode then max s.currentMaxFeeChange cfg.EmergencyMaxChange
      else s.currentMaxFeeChange) := by
    split
    · exact le_max_of_le_left hmc
    · exact hmc
  simp only [adjustBaseFeeFastPID, reduceIte, true_and]
  rw [fastCalculateDerivative_congr
      { s with throttlingActive := true, throttlingIntensity := τ } s rfl,
    fastCalculateDerivative_congr { s with throttlingActive := false } s rfl]
  exact throttleDecreaseLe s.baseFee cfg.MinBaseFee _ _ τ h0 h1 hm1

/-- Witness for C9: a fresh default tactical state, error −1, utilization
0.5, throttling intensity 0.5. -/
theorem c9_throttling_never_amplifies_decrease_witness :
    (fastNew DefaultSequencerFastPIDConfig).baseFee -
      (adjustBaseFeeFastPID DefaultSequencerFastPIDConfig
        { fastNew DefaultSequencerFastPIDConfig with
          throttlingActive := true, throttlingIntensity := 1/2 }
        (-1) (1/2)).baseFee ≤
    (fastNew DefaultSequencerFastPIDConfig).baseFee -
      (adjustBaseFeeFastPID DefaultSequencerFastPIDConfig
        { fastNew DefaultSequencerFastPIDConfig with throttlingActive := false }
        (-1) (1/2)).baseFee :=
  c9_throttling_never_amplifies_decrease DefaultSequencerFastPIDConfig
    (fastNew DefaultSequencerFastPIDConfig) (-1) (1/2) (1/2)
    (by norm_num) (by norm_num)
    (by norm_num [fastNew, DefaultSequencerFastPIDConfig])
    (by norm_num [DefaultSequencerFastPIDConfig])
